import Mathlib

/-!
# traefik-cloudflare-plugin: the IP trust checkers and the request filter

A shallow embedding of `ip_checker.go` and of `New`, `Cloudflare.ServeHTTP`
and `overwriteForwardedFor` from `cloudflare.go`.

Conventions of the embedding.

* A Go `error` is its message, a `String`; `nil` is `none`.
* `time.Time` is an integer count of nanoseconds, `time.Duration` an integer
  count of nanoseconds in the `int64` range. `Time.Add` is exact, `Time.Sub`
  saturates at the largest and smallest `Duration`, and `Duration`
  subtraction wraps around like `int64` subtraction.
* `net.IP` and `net.IPMask` are byte slices, here lists of naturals; a `nil`
  slice is the empty list.
* The mutable receiver `*cloudflareIPChecker` is passed in and returned.
* What the outside world decides during a call is an argument of the call:
  the readings of `internal.Now()`, and how the HTTP exchange of `Refresh`
  ends (`Fetch`).
* The parsers of the Go standard library that the code calls
  (`net.ParseCIDR`, `net.ParseIP`, `net.SplitHostPort`) are the fields of
  `Stdlib`, over which every definition is parametric; `time.ParseDuration`
  is an argument of `New`.
* The pointer `*http.Request` is passed in and the request as the call
  leaves it is returned.
-/

namespace TraefikCloudflare

/-! ## Go values -/

/-- A Go `error`, identified with its message. -/
abbrev Error := String

/-- A `time.Duration`: nanoseconds. -/
abbrev Duration := Int

/-- A `time.Time`: nanoseconds on the clock that `internal.Now` reads. -/
abbrev Time := Int

/-- The largest `time.Duration`, `1<<63 - 1`. -/
def maxDuration : Duration := 2 ^ 63 - 1

/-- The smallest `time.Duration`, `-1 << 63`. -/
def minDuration : Duration := -(2 ^ 63)

/-- A mathematical integer reduced to the `int64` it is stored as. -/
def wrap64 (x : Int) : Int := (x + 2 ^ 63) % 2 ^ 64 - 2 ^ 63

/-- Subtraction of two `time.Duration` values (`int64` arithmetic). -/
def Duration.sub (a b : Duration) : Duration := wrap64 (a - b)

/-- The constant `time.Minute`. -/
def Minute : Duration := 60 * 1000000000

/-- The method `Time.Add`. -/
def Time.Add (t : Time) (d : Duration) : Time := t + d

/-- The method `Time.Sub`: the difference `t - u`, replaced by the largest
or smallest duration when it does not fit one. -/
def Time.Sub (t u : Time) : Duration :=
  if t - u > maxDuration then maxDuration
  else if t - u < minDuration then minDuration
  else t - u

/-- A `net.IP`: a slice of bytes. -/
abbrev IP := List Nat

/-- A `net.IPMask`: a slice of bytes. -/
abbrev IPMask := List Nat

/-- The struct `net.IPNet`. -/
structure IPNet where
  IP : IP
  Mask : IPMask
deriving DecidableEq, Repr

/-- The method `IP.To4` of package `net`: the 4-byte form of an IPv4 address
(also of one stored in its 16-byte IPv4-mapped form), `none` for Go's `nil`. -/
def IP.To4 (ip : IP) : Option IP :=
  if ip.length = 4 then some ip
  else if ip.length = 16 ∧ (ip.take 10).all (fun b => b == 0) = true
      ∧ ip.get? 10 = some 255 ∧ ip.get? 11 = some 255 then
    some (ip.drop 12)
  else none

/-- The function `networkNumberAndMask` of package `net`; the pair of empty
lists stands for its `nil, nil`. -/
def networkNumberAndMask (n : IPNet) : IP × IPMask :=
  let step (ip : IP) : IP × IPMask :=
    if n.Mask.length = 4 then
      if ip.length ≠ 4 then ([], []) else (ip, n.Mask)
    else if n.Mask.length = 16 then
      if ip.length = 4 then (ip, n.Mask.drop 12) else (ip, n.Mask)
    else ([], [])
  match n.IP.To4 with
  | some ip => step ip
  | none => if n.IP.length ≠ 16 then ([], []) else step n.IP

/-- The byte loop of `IPNet.Contains`:
`for i := 0; i < l; i++ { if nn[i]&m[i] != ip[i]&m[i] { return false } }; return true`. -/
def IPNet.Contains.loop : List Nat → List Nat → List Nat → Bool
  | n :: nn, m :: mm, x :: ip =>
    if n &&& m ≠ x &&& m then false else IPNet.Contains.loop nn mm ip
  | _, _, _ => true

/-- The method `IPNet.Contains` of package `net`. -/
def IPNet.Contains (n : IPNet) (ip : TraefikCloudflare.IP) : Bool :=
  let (nn, m) := networkNumberAndMask n
  let ip := match ip.To4 with
    | some x => x
    | none => ip
  if ip.length ≠ nn.length then false
  else IPNet.Contains.loop nn m ip

/-- The standard-library parsers the plugin calls. -/
structure Stdlib where
  /-- The network returned by `net.ParseCIDR`, or its error. -/
  ParseCIDR : String → Except Error IPNet
  /-- The function `net.ParseIP`; `none` is `nil`. -/
  ParseIP : String → Option IP
  /-- The function `net.SplitHostPort`. -/
  SplitHostPort : String → Except Error (String × String)

/-! ## ip_checker.go -/

/-- The loop shared by both checkers:
`for _, cidr := range cidrs { if cidr.Contains(ip) { return true, nil } }; return false, nil`. -/
def rangeLoop : List IPNet → IP → Bool × Option Error
  | [], _ => (false, none)
  | cidr :: rest, ip => if cidr.Contains ip then (true, none) else rangeLoop rest ip

/-- The struct `staticIPChecker`. -/
structure staticIPChecker where
  Cidrs : List IPNet
deriving DecidableEq, Repr

/-- The method `staticIPChecker.CheckIP`. -/
def staticIPChecker.CheckIP (c : staticIPChecker) (ip : IP) : Bool × Option Error :=
  rangeLoop c.Cidrs ip

/-- The struct `cloudflareIPChecker`. -/
structure cloudflareIPChecker where
  RefreshInterval : Duration
  cidrs : List IPNet
  lastRefresh : Time
deriving DecidableEq, Repr

/-- The struct `cloudflareError`. -/
structure cloudflareError where
  Code : Int
  Message : String
deriving DecidableEq, Repr

/-- The method `cloudflareError.Error` on a possibly `nil` receiver:
`fmt.Errorf("Error %d: %s", e.Code, e.Message)`, and `nil` for `nil`. -/
def cloudflareError.Error : Option cloudflareError → Option Error
  | none => none
  | some e => some ("Error " ++ toString e.Code ++ ": " ++ e.Message)

/-- The struct `cloudflareIPs`. -/
structure cloudflareIPs where
  IPv4CIDRs : List String
  IPv6CIDRs : List String
deriving DecidableEq, Repr

/-- The struct `cloudflareResponse`; `Errors` is a slice of pointers, each of
which may be `nil`, and `Result` is a pointer. -/
structure cloudflareResponse where
  Success : Bool
  Errors : List (Option cloudflareError)
  Result : Option cloudflareIPs
deriving DecidableEq, Repr

/-- The failure branch of `cloudflareResponse.Data`: the first non-`nil`
`e.Error()` over `r.Errors`, else `errors.New("invalid response")`. -/
def cloudflareResponse.Data.failure : List (Option cloudflareError) → Error
  | [] => "invalid response"
  | e :: rest =>
    match cloudflareError.Error e with
    | some err => err
    | none => cloudflareResponse.Data.failure rest

/-- One parsing loop of `cloudflareResponse.Data`, appending to `res`:
`for _, c := range list { _, cidr, err := net.ParseCIDR(c); if err != nil { return nil, err }; res = append(res, cidr) }`. -/
def cloudflareResponse.Data.parse (lib : Stdlib) :
    List String → List IPNet → Except Error (List IPNet)
  | [], res => .ok res
  | c :: rest, res =>
    match lib.ParseCIDR c with
    | .error err => .error err
    | .ok cidr => cloudflareResponse.Data.parse lib rest (res ++ [cidr])

/-- The method `cloudflareResponse.Data`. -/
def cloudflareResponse.Data (lib : Stdlib) (r : cloudflareResponse) :
    Except Error (List IPNet) :=
  match r.Result with
  | none => .error (cloudflareResponse.Data.failure r.Errors)
  | some result =>
    if !r.Success then .error (cloudflareResponse.Data.failure r.Errors)
    else
      match cloudflareResponse.Data.parse lib result.IPv4CIDRs [] with
      | .error err => .error err
      | .ok res => cloudflareResponse.Data.parse lib result.IPv6CIDRs res

/-- How the HTTP exchange inside `Refresh` ends. -/
inductive Fetch where
  /-- The call `http.NewRequestWithContext` returns `err`. -/
  | requestError (err : Error)
  /-- The call `http.DefaultClient.Do(req)` returns `err`. -/
  | doError (err : Error)
  /-- A response arrives; `body` is what `json.NewDecoder(res.Body).Decode`
  makes of its body. -/
  | response (StatusCode : Int) (Status : String) (body : Except Error cloudflareResponse)

/-- What one run of `Refresh` meets: the reading of `internal.Now()` it
takes and the end of its HTTP exchange. -/
structure RefreshEnv where
  now : Time
  fetch : Fetch

/-- The method `cloudflareIPChecker.Refresh`: the checker afterwards and the
returned error. -/
def cloudflareIPChecker.Refresh (lib : Stdlib) (c : cloudflareIPChecker)
    (env : RefreshEnv) : cloudflareIPChecker × Option Error :=
  let failed : cloudflareIPChecker :=
    { c with lastRefresh := Time.Add env.now (Duration.sub (5 * Minute) c.RefreshInterval) }
  match env.fetch with
  | .requestError err => (failed, some err)
  | .doError err => (failed, some err)
  | .response StatusCode Status body =>
    if StatusCode < 200 ∨ StatusCode > 299 then
      (failed, some ("invalid response: " ++ Status))
    else
      match body with
      | .error err => (failed, some err)
      | .ok resp =>
        match resp.Data lib with
        | .error err => (failed, some err)
        | .ok cidrs => ({ c with cidrs := cidrs, lastRefresh := env.now }, none)

/-- What a `CheckIP` call leaves behind and returns: the checker afterwards,
the two return values, and whether the call ran `Refresh` (the only place
where the remote list is fetched). -/
structure Checked (σ : Type) where
  checker : σ
  allow : Bool
  err : Option Error
  refreshed : Bool
deriving DecidableEq, Repr

/-- The method `cloudflareIPChecker.CheckIP`; `now` is the reading of
`internal.Now()` in its condition. -/
def cloudflareIPChecker.CheckIP (lib : Stdlib) (c : cloudflareIPChecker) (now : Time)
    (env : RefreshEnv) (ip : IP) : Checked cloudflareIPChecker :=
  if c.RefreshInterval > 0 ∧ Time.Sub now c.lastRefresh > c.RefreshInterval then
    match c.Refresh lib env with
    | (c', some err) =>
      { checker := c', allow := false,
        err := some ("failed to refresh Cloudflare IPs: " ++ err), refreshed := true }
    | (c', none) =>
      { checker := c', allow := (rangeLoop c'.cidrs ip).1, err := (rangeLoop c'.cidrs ip).2,
        refreshed := true }
  else
    { checker := c, allow := (rangeLoop c.cidrs ip).1, err := (rangeLoop c.cidrs ip).2,
      refreshed := false }

/-- The interface `ipChecker` with its two implementations. -/
inductive ipChecker where
  | static (c : staticIPChecker)
  | cloudflare (c : cloudflareIPChecker)
deriving DecidableEq, Repr

/-- The interface method `ipChecker.CheckIP`, dispatched on the implementation. -/
def ipChecker.CheckIP (lib : Stdlib) (k : ipChecker) (now : Time) (env : RefreshEnv)
    (ip : IP) : Checked ipChecker :=
  match k with
  | .static c =>
    { checker := .static c, allow := (c.CheckIP ip).1, err := (c.CheckIP ip).2,
      refreshed := false }
  | .cloudflare c =>
    let out := c.CheckIP lib now env ip
    { checker := .cloudflare out.checker, allow := out.allow, err := out.err,
      refreshed := out.refreshed }

/-- A run of `CheckIP` calls on one checker, each with its own clock reading,
refresh environment and address: the checker at the end and the outcome of
every call, in order. -/
def cloudflareIPChecker.CheckIPs (lib : Stdlib) :
    cloudflareIPChecker → List (Time × RefreshEnv × IP) →
      cloudflareIPChecker × List (Checked cloudflareIPChecker)
  | c, [] => (c, [])
  | c, (now, env, ip) :: calls =>
    let out := c.CheckIP lib now env ip
    let rest := cloudflareIPChecker.CheckIPs lib out.checker calls
    (rest.1, out :: rest.2)

/-! ## cloudflare.go -/

/-- An `http.Header`: the values stored under each canonical key. -/
abbrev Header := List (String × List String)

/-- The method `Header.Get` for an already canonical key: the first value
stored under the key, `""` when there is none. -/
def Header.Get (h : Header) (key : String) : String :=
  match h.lookup key with
  | some (v :: _) => v
  | _ => ""

/-- The method `Header.Set` for an already canonical key: the entry of the key
becomes the single value. -/
def Header.Set (h : Header) (key value : String) : Header :=
  (key, [value]) :: h.filter (fun e => e.1 != key)

/-- The map key of `CF-Connecting-IP`, its `http.CanonicalHeaderKey`. -/
def keyCFConnectingIP : String := "Cf-Connecting-Ip"

/-- The map key of `X-Forwarded-For`, which is canonical already. -/
def keyXForwardedFor : String := "X-Forwarded-For"

/-- The fields of `http.Request` that the plugin reads or writes. -/
structure Request where
  RemoteAddr : String
  Header : Header
deriving DecidableEq, Repr

/-- The struct `Cloudflare`, without its `next` handler. -/
structure Cloudflare where
  name : String
  checker : ipChecker
  overwriteForwardedFor : Bool
deriving DecidableEq, Repr

/-- The function `overwriteForwardedFor`: the request afterwards and the
returned error. -/
def overwriteForwardedFor (r : Request) : Request × Option Error :=
  let ip := r.Header.Get keyCFConnectingIP
  if ip = "" then (r, some "missing CF-Connecting-IP header")
  else ({ r with Header := r.Header.Set keyXForwardedFor ip }, none)

/-- The function `http.StatusText` on the codes the plugin answers with. -/
def StatusText (code : Nat) : String :=
  if code = 400 then "Bad Request"
  else if code = 403 then "Forbidden"
  else if code = 500 then "Internal Server Error"
  else ""

/-- What `ServeHTTP` does with the request. -/
inductive Served where
  /-- The reply `http.Error(w, http.StatusText(code), code)`. -/
  | error (text : String) (code : Nat)
  /-- The call `c.next.ServeHTTP(w, r)` with the request as it then is. -/
  | next (r : Request)
deriving DecidableEq, Repr

/-- The effects of one `ServeHTTP` call: the handler afterwards, the request
`*r` as the call leaves it, what was done with the request, the error given
to `log.Println`, and whether the checker ran `Refresh`. -/
structure ServeResult where
  handler : Cloudflare
  request : Request
  served : Served
  logged : Option Error
  refreshed : Bool
deriving DecidableEq, Repr

/-- The method `Cloudflare.ServeHTTP`. -/
def Cloudflare.ServeHTTP (lib : Stdlib) (c : Cloudflare) (now : Time) (env : RefreshEnv)
    (r : Request) : ServeResult :=
  match lib.SplitHostPort r.RemoteAddr with
  | .error _ =>
    { handler := c, request := r, served := .error (StatusText 400) 400, logged := none,
      refreshed := false }
  | .ok (ip, _) =>
    match lib.ParseIP ip with
    | none =>
      { handler := c, request := r, served := .error (StatusText 400) 400, logged := none,
        refreshed := false }
    | some sip =>
      let out := c.checker.CheckIP lib now env sip
      let c' : Cloudflare := { c with checker := out.checker }
      match out.err with
      | some err =>
        { handler := c', request := r, served := .error (StatusText 500) 500,
          logged := some err, refreshed := out.refreshed }
      | none =>
        if !out.allow then
          { handler := c', request := r, served := .error (StatusText 403) 403,
            logged := none, refreshed := out.refreshed }
        else if c.overwriteForwardedFor then
          match TraefikCloudflare.overwriteForwardedFor r with
          | (r', some _) =>
            { handler := c', request := r', served := .error (StatusText 400) 400,
              logged := none, refreshed := out.refreshed }
          | (r', none) =>
            { handler := c', request := r', served := .next r', logged := none,
              refreshed := out.refreshed }
        else
          { handler := c', request := r, served := .next r, logged := none,
            refreshed := out.refreshed }

/-- The constant `minRefresh`. -/
def minRefresh : Duration := 5 * Minute

/-- The constant `defaultRefresh`. -/
def defaultRefresh : String := "24h"

/-- The struct `Config`; a `nil` slice of `TrustedCIDRs` is the empty list. -/
structure Config where
  TrustedCIDRs : List String
  RefreshInterval : String
  OverwriteForwardedFor : Bool
deriving DecidableEq, Repr

/-- The function `CreateConfig`. -/
def CreateConfig : Config :=
  { TrustedCIDRs := [], RefreshInterval := defaultRefresh, OverwriteForwardedFor := true }

/-- The loop of `New` over `config.TrustedCIDRs`, appending to `cidrs`:
`for _, c := range config.TrustedCIDRs { _, cidr, err := net.ParseCIDR(c); if err != nil { return nil, fmt.Errorf("invalid CIDR: %w", err) }; cidrs = append(cidrs, cidr) }`. -/
def New.parse (lib : Stdlib) : List String → List IPNet → Except Error (List IPNet)
  | [], cidrs => .ok cidrs
  | c :: rest, cidrs =>
    match lib.ParseCIDR c with
    | .error err => .error ("invalid CIDR: " ++ err)
    | .ok cidr => New.parse lib rest (cidrs ++ [cidr])

/-- The `switch` of `New` on the parsed interval:
`case ri <= 0: ri = 0`, `case ri < minRefresh: ri = minRefresh`. -/
def New.clamp (ri : Duration) : Duration :=
  if ri ≤ 0 then 0
  else if ri < minRefresh then minRefresh
  else ri

/-- The zero `time.Time` (January 1 of year 1, UTC), which a fresh
`cloudflareIPChecker` has as `lastRefresh`, in nanoseconds from the Unix
epoch. -/
def zeroTime : Time := -62135596800 * 1000000000

/-- What `New` returns, the handler (`none` for `nil`) and the error, and
whether it ran `Refresh`. -/
structure NewResult where
  handler : Option Cloudflare
  err : Option Error
  refreshed : Bool
deriving DecidableEq, Repr

/-- The function `New`, without the `next` handler it only stores.
`ParseDuration` is `time.ParseDuration` of the standard library, `env` is
what the initial `Refresh` meets, and a `nil` config is `none`. -/
def New (lib : Stdlib) (ParseDuration : String → Except Error Duration) (env : RefreshEnv)
    (config : Option Config) (name : String) : NewResult :=
  match config with
  | none => { handler := none, err := some "invalid config", refreshed := false }
  | some config =>
    if config.TrustedCIDRs.length > 0 then
      match New.parse lib config.TrustedCIDRs [] with
      | .error err => { handler := none, err := some err, refreshed := false }
      | .ok cidrs =>
        { handler := some { name := name, checker := .static { Cidrs := cidrs },
                            overwriteForwardedFor := config.OverwriteForwardedFor },
          err := none, refreshed := false }
    else
      match ParseDuration config.RefreshInterval with
      | .error err =>
        { handler := none, err := some ("invalid refresh interval: " ++ err),
          refreshed := false }
      | .ok ri =>
        let checker : cloudflareIPChecker :=
          { RefreshInterval := New.clamp ri, cidrs := [], lastRefresh := zeroTime }
        match checker.Refresh lib env with
        | (_, some err) =>
          { handler := none, err := some ("failed to refresh Cloudflare IPs: " ++ err),
            refreshed := true }
        | (checker', none) =>
          { handler := some { name := name, checker := .cloudflare checker',
                              overwriteForwardedFor := config.OverwriteForwardedFor },
            err := none, refreshed := true }

/-- The string `s` parses to the network `n`. -/
def ParsesTo (lib : Stdlib) (s : String) (n : IPNet) : Prop := lib.ParseCIDR s = .ok n

/-- The checker a failed `Refresh` leaves: only `lastRefresh` is written. -/
def afterFailure (c : cloudflareIPChecker) (now : Time) : cloudflareIPChecker :=
  { c with lastRefresh := Time.Add now (Duration.sub (5 * Minute) c.RefreshInterval) }

/-! ## Values from cloudflare_test.go -/

/-- The network `net.ParseCIDR("172.16.0.0/12")` returns. -/
def net_172_16_0_0_12 : IPNet := { IP := [172, 16, 0, 0], Mask := [255, 240, 0, 0] }

/-- The network `net.ParseCIDR("172.16.0.0/24")` returns. -/
def net_172_16_0_0_24 : IPNet := { IP := [172, 16, 0, 0], Mask := [255, 255, 255, 0] }

/-- The network `net.ParseCIDR("2001:db8:2::/47")` returns. -/
def net_2001_db8_2_47 : IPNet :=
  { IP := [0x20, 0x01, 0x0d, 0xb8, 0, 2, 0, 0, 0, 0, 0, 0, 0, 0, 0, 0],
    Mask := [255, 255, 255, 255, 255, 254, 0, 0, 0, 0, 0, 0, 0, 0, 0, 0] }

/-- The address `net.ParseIP("172.16.1.1")` returns, in its 16-byte form. -/
def ip_172_16_1_1 : IP := [0, 0, 0, 0, 0, 0, 0, 0, 0, 0, 255, 255, 172, 16, 1, 1]

/-- The address `net.ParseIP("172.15.1.1")` returns, in its 16-byte form. -/
def ip_172_15_1_1 : IP := [0, 0, 0, 0, 0, 0, 0, 0, 0, 0, 255, 255, 172, 15, 1, 1]

/-- The address `net.ParseIP("2001:db8:2:2::1")` returns. -/
def ip_2001_db8_2_2_1 : IP := [0x20, 0x01, 0x0d, 0xb8, 0, 2, 0, 2, 0, 0, 0, 0, 0, 0, 0, 1]

/-- The address `net.ParseIP("2001:db8:1:2::1")` returns. -/
def ip_2001_db8_1_2_1 : IP := [0x20, 0x01, 0x0d, 0xb8, 0, 1, 0, 2, 0, 0, 0, 0, 0, 0, 0, 1]

/-- The standard-library parsers restricted to the strings that occur in
cloudflare_test.go; on every other string they report a failure. It only
serves to run the definitions on the test scenarios. -/
def testLib : Stdlib where
  ParseCIDR := fun s =>
    if s = "172.16.0.0/12" then .ok net_172_16_0_0_12
    else if s = "172.16.0.0/24" then .ok net_172_16_0_0_24
    else if s = "2001:db8:2::/47" then .ok net_2001_db8_2_47
    else .error ("invalid CIDR address: " ++ s)
  ParseIP := fun s =>
    if s = "172.16.1.1" then some ip_172_16_1_1
    else if s = "172.15.1.1" then some ip_172_15_1_1
    else if s = "2001:db8:2:2::1" then some ip_2001_db8_2_2_1
    else if s = "2001:db8:1:2::1" then some ip_2001_db8_1_2_1
    else none
  SplitHostPort := fun s =>
    if s = "172.16.1.1:42" then .ok ("172.16.1.1", "42")
    else if s = "172.15.1.1:42" then .ok ("172.15.1.1", "42")
    else if s = "[2001:db8:2:2::1]:42" then .ok ("2001:db8:2:2::1", "42")
    else if s = "[2001:db8:1:2::1]:42" then .ok ("2001:db8:1:2::1", "42")
    else .error ("address " ++ s ++ ": missing port in address")

/-- The body `{"result":null,"success":false,"errors":[{"code":1000,"message":"ERR"}],...}`
of the test, decoded. -/
def errResponse : cloudflareResponse :=
  { Success := false, Errors := [some { Code := 1000, Message := "ERR" }], Result := none }

/-- The body of the test with `172.16.0.0/12` and `2001:db8:2::/47`, decoded. -/
def wideResponse : cloudflareResponse :=
  { Success := true, Errors := [],
    Result := some { IPv4CIDRs := ["172.16.0.0/12"], IPv6CIDRs := ["2001:db8:2::/47"] } }

/-- The body of the test with `172.16.0.0/24` and `2001:db8:2::/47`, decoded. -/
def narrowResponse : cloudflareResponse :=
  { Success := true, Errors := [],
    Result := some { IPv4CIDRs := ["172.16.0.0/24"], IPv6CIDRs := ["2001:db8:2::/47"] } }

/-- The checker of the periodic-update test after `New`: interval `5m`, the
wide range set, refreshed at clock reading 0. -/
def testChecker : cloudflareIPChecker :=
  { RefreshInterval := 5 * Minute, cidrs := [net_172_16_0_0_12, net_2001_db8_2_47],
    lastRefresh := 0 }

/-- The constant `time.Hour`. -/
def Hour : Duration := 60 * Minute

/-- The network `net.ParseCIDR("0.0.0.0/0")` returns. -/
def net_0_0_0_0_0 : IPNet := { IP := [0, 0, 0, 0], Mask := [0, 0, 0, 0] }

/-- The handler of the test "overwrite X-Forwarded-For": every IPv4 address
is trusted and the rewrite is on. -/
def overwriteHandler : Cloudflare :=
  { name := "cloudflare", checker := .static { Cidrs := [net_0_0_0_0_0] },
    overwriteForwardedFor := true }

/-- The request of the test "missing header". -/
def missingHeaderRequest : Request :=
  { RemoteAddr := "172.16.1.1:42", Header := [("X-Forwarded-For", ["2.2.2.2, 3.3.3.3"])] }

/-- A checker like `testChecker` with the interval `1h`. -/
def hourlyChecker : cloudflareIPChecker :=
  { RefreshInterval := Hour, cidrs := [net_172_16_0_0_12, net_2001_db8_2_47],
    lastRefresh := 0 }

/-- The function `time.ParseDuration` restricted to a few duration strings,
those of cloudflare_test.go among them; on every other string it reports a
failure. It only serves to run `New` on the test scenarios. -/
def testParseDuration (s : String) : Except Error Duration :=
  if s = "0s" then .ok 0
  else if s = "1m" then .ok Minute
  else if s = "5m" then .ok (5 * Minute)
  else if s = "24h" then .ok (24 * Hour)
  else if s = "-1h" then .ok (-Hour)
  else .error ("time: invalid duration " ++ s)

/-- The config of the test "static CIDRs". -/
def staticConfig : Config :=
  { TrustedCIDRs := ["172.16.0.0/12", "2001:db8:2::/47"], RefreshInterval := "24h",
    OverwriteForwardedFor := false }

/-- The config of the test "automatic CIDRs periodic update". -/
def periodicConfig : Config :=
  { TrustedCIDRs := [], RefreshInterval := "5m", OverwriteForwardedFor := false }

/-- The address `net.ParseIP("::ffff:172.16.1.1")` returns: the IPv4-mapped
IPv6 address has the same 16 bytes as the parsed `172.16.1.1`. -/
def ip_mapped_172_16_1_1 : IP := [0, 0, 0, 0, 0, 0, 0, 0, 0, 0, 255, 255, 172, 16, 1, 1]

/-- The request of the test "overwrite": `CF-Connecting-IP` is `1.2.3.4` and
`X-Forwarded-For` holds earlier values. -/
def overwriteRequest : Request :=
  { RemoteAddr := "172.16.1.1:42",
    Header := [("Cf-Connecting-Ip", ["1.2.3.4"]), ("X-Forwarded-For", ["2.2.2.2, 3.3.3.3"])] }

/-- A request like that of the test "overwrite" whose `CF-Connecting-IP`
header is present with the empty value (the header line `CF-Connecting-IP:`). -/
def emptyValueRequest : Request :=
  { RemoteAddr := "172.16.1.1:42",
    Header := [("Cf-Connecting-Ip", [""]), ("X-Forwarded-For", ["2.2.2.2, 3.3.3.3"])] }

/-! ## Lemmas on the range loop -/

theorem rangeLoop_snd (S : List IPNet) (ip : IP) : (rangeLoop S ip).2 = none := by
  induction S with
  | nil => rfl
  | cons n rest ih =>
    unfold rangeLoop
    by_cases h : n.Contains ip = true
    · simp [h]
    · simp [h, ih]

theorem rangeLoop_fst (S : List IPNet) (ip : IP) :
    (rangeLoop S ip).1 = true ↔ ∃ n ∈ S, n.Contains ip = true := by
  induction S with
  | nil => simp [rangeLoop]
  | cons n rest ih =>
    unfold rangeLoop
    by_cases h : n.Contains ip = true
    · simp [h]
    · simp [h, ih]

/-! ## The static checker -/

/-- C1: `staticIPChecker.CheckIP` over the ranges `S` returns `(true, nil)`
exactly when some range of `S` contains the address and `(false, nil)`
exactly when none does; it never returns an error; as the checker of a
handler it leaves the checker as it was and runs no refresh, so a repeated
call, whatever the clock and the network do, returns the same answer. -/
theorem staticIPChecker_CheckIP_iff_contains (S : List IPNet) (ip : IP) :
    (staticIPChecker.CheckIP { Cidrs := S } ip = (true, none)
        ↔ ∃ n ∈ S, n.Contains ip = true) ∧
    (staticIPChecker.CheckIP { Cidrs := S } ip = (false, none)
        ↔ ¬ ∃ n ∈ S, n.Contains ip = true) ∧
    (staticIPChecker.CheckIP { Cidrs := S } ip).2 = none ∧
    ∀ (lib : Stdlib) (now : Time) (env : RefreshEnv),
      (ipChecker.CheckIP lib (.static { Cidrs := S }) now env ip).checker
          = .static { Cidrs := S } ∧
      (ipChecker.CheckIP lib (.static { Cidrs := S }) now env ip).refreshed = false ∧
      ((ipChecker.CheckIP lib (.static { Cidrs := S }) now env ip).allow,
        (ipChecker.CheckIP lib (.static { Cidrs := S }) now env ip).err)
          = staticIPChecker.CheckIP { Cidrs := S } ip ∧
      ∀ (now' : Time) (env' : RefreshEnv),
        ipChecker.CheckIP lib
            (ipChecker.CheckIP lib (.static { Cidrs := S }) now env ip).checker now' env' ip
          = ipChecker.CheckIP lib (.static { Cidrs := S }) now env ip := by
  have hsnd := rangeLoop_snd S ip
  have hfst := rangeLoop_fst S ip
  refine ⟨?_, ?_, hsnd, ?_⟩
  · unfold staticIPChecker.CheckIP
    constructor
    · intro h
      exact hfst.mp (by rw [h])
    · intro h
      exact Prod.ext (hfst.mpr h) hsnd
  · unfold staticIPChecker.CheckIP
    constructor
    · intro h hex
      have := hfst.mpr hex
      rw [h] at this
      exact Bool.noConfusion this
    · intro h
      refine Prod.ext ?_ hsnd
      cases hb : (rangeLoop S ip).1 with
      | false => rfl
      | true => exact absurd (hfst.mp hb) h
  · intro lib now env
    exact ⟨rfl, rfl, rfl, fun _ _ => rfl⟩

/-! ## The request filter -/

theorem forall₂_append_split {α β : Type} {R : α → β → Prop} :
    ∀ {l₁ l₂ : List α} {out : List β}, List.Forall₂ R (l₁ ++ l₂) out →
      ∃ a b, out = a ++ b ∧ List.Forall₂ R l₁ a ∧ List.Forall₂ R l₂ b
  | [], _, out, h => ⟨[], out, rfl, List.Forall₂.nil, h⟩
  | _ :: _, _, _, List.Forall₂.cons hx htl => by
    obtain ⟨a, b, rfl, ha, hb⟩ := forall₂_append_split htl
    exact ⟨_ :: a, b, rfl, List.Forall₂.cons hx ha, hb⟩

theorem exists_parsed {α β : Type} {R : α → β → Prop} :
    ∀ {l : List α} {out : List β}, List.Forall₂ R l out →
      ∀ {s : α}, s ∈ l → ∃ n, n ∈ out ∧ R s n
  | _ :: _, _ :: _, List.Forall₂.cons hx htl, s, hs => by
    rcases List.mem_cons.mp hs with rfl | hmem
    · exact ⟨_, List.mem_cons_self _ _, hx⟩
    · obtain ⟨n, hn, hr⟩ := exists_parsed htl hmem
      exact ⟨n, List.mem_cons_of_mem _ hn, hr⟩

theorem Data_parse_ok_iff (lib : Stdlib) (l : List String) (res out : List IPNet) :
    cloudflareResponse.Data.parse lib l res = .ok out
      ↔ ∃ ns, List.Forall₂ (ParsesTo lib) l ns ∧ out = res ++ ns := by
  induction l generalizing res with
  | nil =>
    simp only [cloudflareResponse.Data.parse, Except.ok.injEq]
    constructor
    · intro h
      exact ⟨[], List.Forall₂.nil, by simp [h]⟩
    · rintro ⟨ns, hns, rfl⟩
      cases hns
      simp
  | cons c rest ih =>
    unfold cloudflareResponse.Data.parse
    cases hc : lib.ParseCIDR c with
    | error err =>
      simp only
      constructor
      · intro h
        cases h
      · rintro ⟨ns, hns, _⟩
        cases hns with
        | cons h _ =>
          unfold ParsesTo at h
          rw [hc] at h
          cases h
    | ok cidr =>
      simp only
      rw [ih]
      constructor
      · rintro ⟨ns, hns, rfl⟩
        exact ⟨cidr :: ns, List.Forall₂.cons hc hns, by simp⟩
      · rintro ⟨ns, hns, rfl⟩
        cases hns with
        | cons h htl =>
          rename_i n tl
          unfold ParsesTo at h
          rw [hc] at h
          cases h
          exact ⟨tl, htl, by simp⟩

theorem Data_ok_iff (lib : Stdlib) (r : cloudflareResponse) (out : List IPNet) :
    r.Data lib = .ok out
      ↔ r.Success = true ∧ ∃ res, r.Result = some res ∧
          List.Forall₂ (ParsesTo lib) (res.IPv4CIDRs ++ res.IPv6CIDRs) out := by
  unfold cloudflareResponse.Data
  cases hres : r.Result with
  | none => simp
  | some res =>
    cases hs : r.Success with
    | false => simp
    | true =>
      simp only [Bool.not_true, Bool.false_eq_true, if_false, true_and, Option.some.injEq,
        exists_eq_left']
      constructor
      · intro h
        cases h4 : cloudflareResponse.Data.parse lib res.IPv4CIDRs [] with
        | error err => rw [h4] at h; cases h
        | ok mid =>
          rw [h4] at h
          simp only at h
          obtain ⟨ns4, hns4, rfl⟩ := (Data_parse_ok_iff lib _ _ _).mp h4
          obtain ⟨ns6, hns6, rfl⟩ := (Data_parse_ok_iff lib _ _ _).mp h
          simpa using List.rel_append hns4 hns6
      · intro h
        obtain ⟨ns4, ns6, rfl, hns4, hns6⟩ := forall₂_append_split h
        have h4 : cloudflareResponse.Data.parse lib res.IPv4CIDRs [] = .ok ns4 :=
          (Data_parse_ok_iff lib _ _ _).mpr ⟨ns4, hns4, by simp⟩
        rw [h4]
        exact (Data_parse_ok_iff lib _ _ _).mpr ⟨ns6, hns6, rfl⟩

theorem Refresh_cases (lib : Stdlib) (c : cloudflareIPChecker) (env : RefreshEnv) :
    (∃ e, c.Refresh lib env = (afterFailure c env.now, some e)) ∨
    (∃ code status resp S', env.fetch = .response code status (.ok resp) ∧
      200 ≤ code ∧ code ≤ 299 ∧ resp.Data lib = .ok S' ∧
      c.Refresh lib env = ({ c with cidrs := S', lastRefresh := env.now }, none)) := by
  unfold cloudflareIPChecker.Refresh afterFailure
  cases hf : env.fetch with
  | requestError err => exact Or.inl ⟨err, rfl⟩
  | doError err => exact Or.inl ⟨err, rfl⟩
  | response code status body =>
    by_cases hcode : code < 200 ∨ code > 299
    · exact Or.inl ⟨"invalid response: " ++ status, by simp [hcode]⟩
    · cases body with
      | error err => exact Or.inl ⟨err, by simp [hcode]⟩
      | ok resp =>
        cases hd : resp.Data lib with
        | error err => exact Or.inl ⟨err, by simp [hcode, hd]⟩
        | ok S' =>
          refine Or.inr ⟨code, status, resp, S', rfl, ?_, ?_, hd, by simp [hcode, hd]⟩
          · omega
          · omega

theorem Refresh_of_error (lib : Stdlib) (c : cloudflareIPChecker) (env : RefreshEnv)
    (e : Error) (h : (c.Refresh lib env).2 = some e) :
    c.Refresh lib env = (afterFailure c env.now, some e) := by
  rcases Refresh_cases lib c env with ⟨e', he'⟩ | ⟨_, _, _, _, _, _, _, _, hok⟩
  · rw [he'] at h ⊢
    simp only [Option.some.injEq] at h
    rw [h]
  · rw [hok] at h
    cases h

theorem Refresh_of_ok (lib : Stdlib) (c : cloudflareIPChecker) (env : RefreshEnv)
    (code : Int) (status : String) (resp : cloudflareResponse) (S' : List IPNet)
    (hfetch : env.fetch = .response code status (.ok resp))
    (hlo : 200 ≤ code) (hhi : code ≤ 299) (hdata : resp.Data lib = .ok S') :
    c.Refresh lib env = ({ c with cidrs := S', lastRefresh := env.now }, none) := by
  have hcode : ¬ (code < 200 ∨ code > 299) := by omega
  unfold cloudflareIPChecker.Refresh
  simp [hfetch, hcode, hdata]

theorem CheckIP_of_fresh (lib : Stdlib) (c : cloudflareIPChecker) (now : Time)
    (env : RefreshEnv) (ip : IP)
    (h : ¬ (c.RefreshInterval > 0 ∧ Time.Sub now c.lastRefresh > c.RefreshInterval)) :
    c.CheckIP lib now env ip
      = { checker := c, allow := (rangeLoop c.cidrs ip).1, err := none, refreshed := false } := by
  unfold cloudflareIPChecker.CheckIP
  rw [if_neg h, rangeLoop_snd]

theorem maxDuration_eq : maxDuration = (9223372036854775807 : Int) := by decide

theorem minDuration_eq : minDuration = (-9223372036854775808 : Int) := by decide

theorem Minute_eq : Minute = (60000000000 : Int) := by decide

theorem wrap64_of_range (x : Int) (hlo : minDuration ≤ x) (hhi : x ≤ maxDuration) :
    wrap64 x = x := by
  rw [minDuration_eq] at hlo
  rw [maxDuration_eq] at hhi
  have h63 : (2 : Int) ^ 63 = 9223372036854775808 := by decide
  have h64 : (2 : Int) ^ 64 = 18446744073709551616 := by decide
  unfold wrap64
  rw [h63, h64]
  simp only [Duration] at *
  omega

theorem backoff_offset (I : Duration) (h0 : 0 ≤ I) (hmax : I ≤ maxDuration) :
    Duration.sub (5 * Minute) I = 5 * Minute - I := by
  unfold Duration.sub
  apply wrap64_of_range
  · rw [minDuration_eq, Minute_eq]
    rw [maxDuration_eq] at hmax
    simp only [Duration] at *
    omega
  · rw [maxDuration_eq, Minute_eq]
    simp only [Duration] at *
    omega

/-- The exact difference being at most a non-negative `I` makes the saturated
`Time.Sub` at most `I` as well. -/
theorem Time_Sub_le (t u : Time) (I : Duration) (hI : 0 ≤ I) (h : t - u ≤ I) :
    Time.Sub t u ≤ I := by
  unfold Time.Sub
  rw [maxDuration_eq, minDuration_eq]
  split
  · linarith
  · split
    · linarith
    · exact h

theorem Time_Sub_gt (t u : Time) (I : Duration) (hI : 0 ≤ I) (h : Time.Sub t u > I) :
    t - u > I := by
  unfold Time.Sub at h
  rw [maxDuration_eq, minDuration_eq] at h
  simp only [Duration, Time] at *
  split at h
  · omega
  · split at h
    · omega
    · exact h

theorem afterFailure_not_stale (c : cloudflareIPChecker) (t t' : Time)
    (h0 : 0 ≤ c.RefreshInterval) (hmax : c.RefreshInterval ≤ maxDuration)
    (h : t' - t ≤ 5 * Minute) :
    ¬ (Time.Sub t' (afterFailure c t).lastRefresh > (afterFailure c t).RefreshInterval) := by
  intro hgt
  have hmath := Time_Sub_gt _ _ _ h0 hgt
  simp only [afterFailure, Time.Add, backoff_offset _ h0 hmax] at hmath
  rw [Minute_eq] at h hmath
  simp only [Duration, Time] at *
  omega

theorem CheckIPs_of_fresh (lib : Stdlib) (c : cloudflareIPChecker) :
    ∀ calls : List (Time × RefreshEnv × IP),
      (∀ call ∈ calls,
        ¬ (c.RefreshInterval > 0 ∧ Time.Sub call.1 c.lastRefresh > c.RefreshInterval)) →
      cloudflareIPChecker.CheckIPs lib c calls
        = (c, calls.map (fun call =>
            { checker := c, allow := (rangeLoop c.cidrs call.2.2).1, err := none,
              refreshed := false }))
  | [], _ => rfl
  | (now, env, ip) :: calls, h => by
    have hhead := CheckIP_of_fresh lib c now env ip (h (now, env, ip) (by simp))
    have htail := CheckIPs_of_fresh lib c calls (fun call hc => h call (by simp [hc]))
    simp only [cloudflareIPChecker.CheckIPs, hhead, htail, List.map_cons]

/-! ## The refreshing checker -/

/-- C3: when the checker is stale (`RefreshInterval > 0` and
`Now().Sub(lastRefresh) > RefreshInterval`) and the refresh it triggers
returns an error, `CheckIP` returns `false` together with an error wrapping
that one, whatever the held range set says about the address; the held set
is not consulted and stays as it was. -/
theorem CheckIP_stale_failed_refresh (lib : Stdlib) (c : cloudflareIPChecker) (now : Time)
    (env : RefreshEnv) (ip : IP) (e : Error)
    (hI : c.RefreshInterval > 0)
    (hstale : Time.Sub now c.lastRefresh > c.RefreshInterval)
    (hfail : (c.Refresh lib env).2 = some e) :
    (c.CheckIP lib now env ip).allow = false ∧
    (c.CheckIP lib now env ip).err = some ("failed to refresh Cloudflare IPs: " ++ e) ∧
    (c.CheckIP lib now env ip).refreshed = true ∧
    (c.CheckIP lib now env ip).checker.cidrs = c.cidrs := by
  have hr := Refresh_of_error lib c env e hfail
  unfold cloudflareIPChecker.CheckIP
  rw [if_pos ⟨hI, hstale⟩, hr]
  exact ⟨rfl, rfl, rfl, rfl⟩

/-- The scenario "expired with error" of the test: the held set contains
172.16.1.1, yet the call returns `false` and an error. -/
theorem CheckIP_stale_failed_refresh_witness :
    (rangeLoop testChecker.cidrs ip_172_16_1_1).1 = true ∧
    (testChecker.CheckIP testLib Hour
        { now := Hour, fetch := .response 200 "200 OK" (.ok errResponse) }
        ip_172_16_1_1).allow = false ∧
    (testChecker.CheckIP testLib Hour
        { now := Hour, fetch := .response 200 "200 OK" (.ok errResponse) }
        ip_172_16_1_1).err
      = some ("failed to refresh Cloudflare IPs: " ++ "Error 1000: ERR") :=
  ⟨by decide,
    (CheckIP_stale_failed_refresh testLib testChecker Hour
      { now := Hour, fetch := .response 200 "200 OK" (.ok errResponse) }
      ip_172_16_1_1 "Error 1000: ERR" (by decide) (by decide) (by decide)).1,
    (CheckIP_stale_failed_refresh testLib testChecker Hour
      { now := Hour, fetch := .response 200 "200 OK" (.ok errResponse) }
      ip_172_16_1_1 "Error 1000: ERR" (by decide) (by decide) (by decide)).2.1⟩

/-- C4: when the checker is stale and the refresh it triggers succeeds with
the parsed range set `S'`, then after `CheckIP` the held set is `S'`,
`lastRefresh` is the clock reading `Refresh` took, no error is returned and
the boolean is membership of the address in `S'`. In particular 172.16.1.1,
inside the old 172.16.0.0/12, is denied when `S'` is 172.16.0.0/24. -/
theorem CheckIP_stale_successful_refresh (lib : Stdlib) (c : cloudflareIPChecker)
    (now : Time) (env : RefreshEnv) (ip : IP)
    (code : Int) (status : String) (resp : cloudflareResponse) (S' : List IPNet)
    (hI : c.RefreshInterval > 0)
    (hstale : Time.Sub now c.lastRefresh > c.RefreshInterval)
    (hfetch : env.fetch = .response code status (.ok resp))
    (hlo : 200 ≤ code) (hhi : code ≤ 299) (hdata : resp.Data lib = .ok S') :
    (c.CheckIP lib now env ip).checker.cidrs = S' ∧
    (c.CheckIP lib now env ip).checker.lastRefresh = env.now ∧
    (c.CheckIP lib now env ip).checker.RefreshInterval = c.RefreshInterval ∧
    (c.CheckIP lib now env ip).err = none ∧
    (c.CheckIP lib now env ip).refreshed = true ∧
    ((c.CheckIP lib now env ip).allow = true ↔ ∃ n ∈ S', n.Contains ip = true) ∧
    (c.cidrs = [net_172_16_0_0_12] → S' = [net_172_16_0_0_24] → ip = ip_172_16_1_1 →
      (∃ n ∈ c.cidrs, n.Contains ip = true) ∧ (c.CheckIP lib now env ip).allow = false) := by
  have hr := Refresh_of_ok lib c env code status resp S' hfetch hlo hhi hdata
  have hout : c.CheckIP lib now env ip
      = { checker := { c with cidrs := S', lastRefresh := env.now },
          allow := (rangeLoop S' ip).1, err := none, refreshed := true } := by
    unfold cloudflareIPChecker.CheckIP
    rw [if_pos ⟨hI, hstale⟩, hr]
    simp only [rangeLoop_snd]
  rw [hout]
  refine ⟨rfl, rfl, rfl, rfl, rfl, rangeLoop_fst S' ip, ?_⟩
  intro hold hnew hip
  subst hnew hip
  rw [hold]
  refine ⟨by decide, ?_⟩
  show (rangeLoop [net_172_16_0_0_24] ip_172_16_1_1).1 = false
  decide

/-- The scenario "expired" of the test: after an hour the narrower list
arrives and 172.16.1.1 is denied. -/
theorem CheckIP_stale_successful_refresh_witness :
    (testChecker.CheckIP testLib Hour
        { now := Hour, fetch := .response 200 "200 OK" (.ok narrowResponse) }
        ip_172_16_1_1).checker.cidrs = [net_172_16_0_0_24, net_2001_db8_2_47] ∧
    (testChecker.CheckIP testLib Hour
        { now := Hour, fetch := .response 200 "200 OK" (.ok narrowResponse) }
        ip_172_16_1_1).checker.lastRefresh = Hour ∧
    (testChecker.CheckIP testLib Hour
        { now := Hour, fetch := .response 200 "200 OK" (.ok narrowResponse) }
        ip_172_16_1_1).allow = false :=
  ⟨(CheckIP_stale_successful_refresh testLib testChecker Hour
      { now := Hour, fetch := .response 200 "200 OK" (.ok narrowResponse) }
      ip_172_16_1_1 200 "200 OK" narrowResponse [net_172_16_0_0_24, net_2001_db8_2_47]
      (by decide) (by decide) rfl (by decide) (by decide) rfl).1,
   (CheckIP_stale_successful_refresh testLib testChecker Hour
      { now := Hour, fetch := .response 200 "200 OK" (.ok narrowResponse) }
      ip_172_16_1_1 200 "200 OK" narrowResponse [net_172_16_0_0_24, net_2001_db8_2_47]
      (by decide) (by decide) rfl (by decide) (by decide) rfl).2.1,
   by decide⟩

/-- C5: when `RefreshInterval > 0` and `Now().Sub(lastRefresh) <= RefreshInterval`
(equality included), `CheckIP` runs no refresh, leaves the checker (range set
and `lastRefresh`) as it was, returns no error, and returns `true` exactly
when some held range contains the address; so any run of calls whose clock
readings all lie inside the window runs no refresh at all. A clock reading
whose exact distance `now' - lastRefresh` is at most `RefreshInterval` lies
inside the window. -/
theorem CheckIP_fresh_no_refresh (lib : Stdlib) (c : cloudflareIPChecker) (now : Time)
    (env : RefreshEnv) (ip : IP)
    (hI : c.RefreshInterval > 0)
    (hfresh : Time.Sub now c.lastRefresh ≤ c.RefreshInterval) :
    (c.CheckIP lib now env ip).refreshed = false ∧
    (c.CheckIP lib now env ip).checker = c ∧
    (c.CheckIP lib now env ip).err = none ∧
    ((c.CheckIP lib now env ip).allow = true ↔ ∃ n ∈ c.cidrs, n.Contains ip = true) ∧
    (∀ calls : List (Time × RefreshEnv × IP),
      (∀ call ∈ calls, Time.Sub call.1 c.lastRefresh ≤ c.RefreshInterval) →
      (cloudflareIPChecker.CheckIPs lib c calls).1 = c ∧
      ∀ out ∈ (cloudflareIPChecker.CheckIPs lib c calls).2,
        out.refreshed = false ∧ out.checker = c ∧ out.err = none) ∧
    (∀ now' : Time, now' - c.lastRefresh ≤ c.RefreshInterval →
      Time.Sub now' c.lastRefresh ≤ c.RefreshInterval) := by
  have hone := CheckIP_of_fresh lib c now env ip (fun h => absurd h.2 (not_lt.mpr hfresh))
  rw [hone]
  refine ⟨rfl, rfl, rfl, rangeLoop_fst c.cidrs ip, ?_,
    fun now' h => Time_Sub_le now' c.lastRefresh c.RefreshInterval (le_of_lt hI) h⟩
  intro calls hcalls
  have hall := CheckIPs_of_fresh lib c calls
    (fun call hc h => absurd h.2 (not_lt.mpr (hcalls call hc)))
  rw [hall]
  refine ⟨rfl, ?_⟩
  intro out hout
  simp only [List.mem_map] at hout
  obtain ⟨call, _, rfl⟩ := hout
  exact ⟨rfl, rfl, rfl⟩

/-- The scenario "initially up-to-date" of the test, also at the very end of
the window (five minutes after the refresh, interval five minutes). -/
theorem CheckIP_fresh_no_refresh_witness :
    Time.Sub (5 * Minute) testChecker.lastRefresh ≤ testChecker.RefreshInterval ∧
    (testChecker.CheckIP testLib (5 * Minute)
        { now := 5 * Minute, fetch := .response 200 "200 OK" (.ok errResponse) }
        ip_172_16_1_1).refreshed = false ∧
    (testChecker.CheckIP testLib (5 * Minute)
        { now := 5 * Minute, fetch := .response 200 "200 OK" (.ok errResponse) }
        ip_172_16_1_1).checker = testChecker :=
  ⟨by decide,
    (CheckIP_fresh_no_refresh testLib testChecker (5 * Minute)
      { now := 5 * Minute, fetch := .response 200 "200 OK" (.ok errResponse) }
      ip_172_16_1_1 (by decide) (by decide)).1,
    (CheckIP_fresh_no_refresh testLib testChecker (5 * Minute)
      { now := 5 * Minute, fetch := .response 200 "200 OK" (.ok errResponse) }
      ip_172_16_1_1 (by decide) (by decide)).2.1⟩

/-- C6: whenever `Refresh` returns an error the held range set is the one
held before; each way of failing does return an error (request construction,
transport, status outside 200..299, undecodable body, `success` false or
`result` missing, a malformed CIDR anywhere in either list); and when
`Refresh` returns no error, every entry of both lists parsed and the held set
is the list of the parsed networks. -/
theorem Refresh_failure_keeps_cidrs (lib : Stdlib) (c : cloudflareIPChecker)
    (env : RefreshEnv) :
    (∀ e, (c.Refresh lib env).2 = some e →
      (c.Refresh lib env).1.cidrs = c.cidrs ∧
      (c.Refresh lib env).1.RefreshInterval = c.RefreshInterval) ∧
    (∀ e, env.fetch = .requestError e → (c.Refresh lib env).2 = some e) ∧
    (∀ e, env.fetch = .doError e → (c.Refresh lib env).2 = some e) ∧
    (∀ code status body, env.fetch = .response code status body →
      code < 200 ∨ code > 299 →
      (c.Refresh lib env).2 = some ("invalid response: " ++ status)) ∧
    (∀ code status e, env.fetch = .response code status (.error e) →
      200 ≤ code → code ≤ 299 → (c.Refresh lib env).2 = some e) ∧
    (∀ code status resp, env.fetch = .response code status (.ok resp) →
      200 ≤ code → code ≤ 299 → resp.Success = false ∨ resp.Result = none →
      (c.Refresh lib env).2 = some (cloudflareResponse.Data.failure resp.Errors)) ∧
    (∀ code status resp res s e, env.fetch = .response code status (.ok resp) →
      200 ≤ code → code ≤ 299 → resp.Result = some res →
      s ∈ res.IPv4CIDRs ++ res.IPv6CIDRs → lib.ParseCIDR s = .error e →
      ∃ e', (c.Refresh lib env).2 = some e') ∧
    ((c.Refresh lib env).2 = none →
      ∃ code status resp res, env.fetch = .response code status (.ok resp) ∧
        200 ≤ code ∧ code ≤ 299 ∧ resp.Success = true ∧ resp.Result = some res ∧
        List.Forall₂ (ParsesTo lib) (res.IPv4CIDRs ++ res.IPv6CIDRs)
          (c.Refresh lib env).1.cidrs) := by
  have hnone : (c.Refresh lib env).2 = none →
      ∃ code status resp res, env.fetch = .response code status (.ok resp) ∧
        200 ≤ code ∧ code ≤ 299 ∧ resp.Success = true ∧ resp.Result = some res ∧
        List.Forall₂ (ParsesTo lib) (res.IPv4CIDRs ++ res.IPv6CIDRs)
          (c.Refresh lib env).1.cidrs := by
    intro h
    rcases Refresh_cases lib c env with ⟨e, he⟩ | ⟨code, status, resp, S', hf, hlo, hhi, hd, hok⟩
    · rw [he] at h
      cases h
    · obtain ⟨hs, res, hres, hall⟩ := (Data_ok_iff lib resp S').mp hd
      rw [hok]
      exact ⟨code, status, resp, res, hf, hlo, hhi, hs, hres, hall⟩
  refine ⟨?_, ?_, ?_, ?_, ?_, ?_, ?_, hnone⟩
  · intro e he
    rw [Refresh_of_error lib c env e he]
    exact ⟨rfl, rfl⟩
  · intro e hf
    simp [cloudflareIPChecker.Refresh, hf]
  · intro e hf
    simp [cloudflareIPChecker.Refresh, hf]
  · intro code status body hf hcode
    simp [cloudflareIPChecker.Refresh, hf, hcode]
  · intro code status e hf hlo hhi
    have hcode : ¬ (code < 200 ∨ code > 299) := by omega
    simp [cloudflareIPChecker.Refresh, hf, hcode]
  · intro code status resp hf hlo hhi hbad
    have hcode : ¬ (code < 200 ∨ code > 299) := by omega
    have hd : resp.Data lib = .error (cloudflareResponse.Data.failure resp.Errors) := by
      unfold cloudflareResponse.Data
      rcases hbad with hs | hr
      · cases hres : resp.Result with
        | none => rfl
        | some res => simp [hs]
      · rw [hr]
    simp [cloudflareIPChecker.Refresh, hf, hcode, hd]
  · intro code status resp res s e hf hlo hhi hres hs hparse
    cases hr : (c.Refresh lib env).2 with
    | some e' => exact ⟨e', rfl⟩
    | none =>
      obtain ⟨code', status', resp', res', hf', _, _, _, hres', hall⟩ := hnone hr
      rw [hf] at hf'
      injection hf' with _ _ hbody
      injection hbody with hresp
      subst hresp
      rw [hres] at hres'
      injection hres' with hres'
      subst hres'
      obtain ⟨n, _, hn⟩ := exists_parsed hall hs
      unfold ParsesTo at hn
      rw [hparse] at hn
      cases hn

/-- The scenario "expired with error" of the test at the level of `Refresh`:
the error payload is reported and the wide range set is still held. -/
theorem Refresh_failure_keeps_cidrs_witness :
    (testChecker.Refresh testLib
        { now := Hour, fetch := .response 200 "200 OK" (.ok errResponse) }).2
      = some "Error 1000: ERR" ∧
    (testChecker.Refresh testLib
        { now := Hour, fetch := .response 200 "200 OK" (.ok errResponse) }).1.cidrs
      = [net_172_16_0_0_12, net_2001_db8_2_47] :=
  ⟨by decide,
    ((Refresh_failure_keeps_cidrs testLib testChecker
      { now := Hour, fetch := .response 200 "200 OK" (.ok errResponse) }).1
      "Error 1000: ERR" (by decide)).1⟩

/-- C7: for a checker with `0 < RefreshInterval` (any value a `Duration` can
hold, clamped or not), after a `Refresh` that failed at clock reading `t`,
every run of `CheckIP` calls whose clock readings `t'` satisfy
`t' - t <= 5 minutes` runs no refresh, returns no error, leaves the checker as
the failed refresh left it, and answers from the range set held before the
failed refresh. -/
theorem CheckIP_within_backoff (lib : Stdlib) (c : cloudflareIPChecker) (env : RefreshEnv)
    (e : Error) (calls : List (Time × RefreshEnv × IP))
    (hI : 0 < c.RefreshInterval) (hmax : c.RefreshInterval ≤ maxDuration)
    (hfail : (c.Refresh lib env).2 = some e)
    (hcalls : ∀ call ∈ calls, call.1 - env.now ≤ 5 * Minute) :
    (cloudflareIPChecker.CheckIPs lib (c.Refresh lib env).1 calls).1 = (c.Refresh lib env).1 ∧
    (cloudflareIPChecker.CheckIPs lib (c.Refresh lib env).1 calls).2
      = calls.map (fun call =>
          { checker := (c.Refresh lib env).1, allow := (rangeLoop c.cidrs call.2.2).1,
            err := none, refreshed := false }) := by
  rw [Refresh_of_error lib c env e hfail]
  have hall := CheckIPs_of_fresh lib (afterFailure c env.now) calls
    (fun call hc h =>
      afterFailure_not_stale c env.now call.1 (le_of_lt hI) hmax (hcalls call hc) h.2)
  rw [hall]
  exact ⟨rfl, rfl⟩

/-- The scenario "up-to-date after error" of the test, with a second call five
minutes after the failed refresh. -/
theorem CheckIP_within_backoff_witness :
    (cloudflareIPChecker.CheckIPs testLib
        (testChecker.Refresh testLib
          { now := Hour, fetch := .response 200 "200 OK" (.ok errResponse) }).1
        [(Hour, { now := Hour, fetch := .doError "timeout" }, ip_172_16_1_1),
         (Hour + 5 * Minute, { now := Hour + 5 * Minute, fetch := .doError "timeout" },
            ip_172_15_1_1)]).2
      = [{ checker := (testChecker.Refresh testLib
            { now := Hour, fetch := .response 200 "200 OK" (.ok errResponse) }).1,
           allow := (rangeLoop testChecker.cidrs ip_172_16_1_1).1, err := none,
           refreshed := false },
         { checker := (testChecker.Refresh testLib
            { now := Hour, fetch := .response 200 "200 OK" (.ok errResponse) }).1,
           allow := (rangeLoop testChecker.cidrs ip_172_15_1_1).1, err := none,
           refreshed := false }] :=
  (CheckIP_within_backoff testLib testChecker
    { now := Hour, fetch := .response 200 "200 OK" (.ok errResponse) } "Error 1000: ERR"
    [(Hour, { now := Hour, fetch := .doError "timeout" }, ip_172_16_1_1),
     (Hour + 5 * Minute, { now := Hour + 5 * Minute, fetch := .doError "timeout" },
        ip_172_15_1_1)]
    (by decide) (by decide) (by decide) (by decide)).2

/-- C8, as the code has it: after a failed `Refresh` at clock reading `now` on
a checker with interval `I` (`0 <= I`, within `Duration`), `lastRefresh`
equals `now + (5 minutes - I)`, so that a later `CheckIP` runs a refresh only
when more than 5 minutes have passed since the failed attempt. -/
theorem Refresh_failure_timestamp (lib : Stdlib) (c : cloudflareIPChecker)
    (env : RefreshEnv) (e : Error)
    (h0 : 0 ≤ c.RefreshInterval) (hmax : c.RefreshInterval ≤ maxDuration)
    (hfail : (c.Refresh lib env).2 = some e) :
    (c.Refresh lib env).1.lastRefresh = env.now + (5 * Minute - c.RefreshInterval) ∧
    ∀ (now' : Time) (env' : RefreshEnv) (ip : IP),
      ((c.Refresh lib env).1.CheckIP lib now' env' ip).refreshed = true →
      now' - env.now > 5 * Minute := by
  rw [Refresh_of_error lib c env e hfail]
  refine ⟨?_, ?_⟩
  · simp only [afterFailure, Time.Add, backoff_offset _ h0 hmax]
  · intro now' env' ip hrun
    by_contra hle
    have hfresh := afterFailure_not_stale c env.now now' h0 hmax (not_lt.mp hle)
    rw [CheckIP_of_fresh lib (afterFailure c env.now) now' env' ip (fun h => hfresh h.2)]
      at hrun
    cases hrun

/-- A failed refresh two hours in, interval one hour: the timestamp becomes
`now - 55 minutes`. -/
theorem Refresh_failure_timestamp_witness :
    (hourlyChecker.Refresh testLib
        { now := 2 * Hour, fetch := .response 200 "200 OK" (.ok errResponse) }).1.lastRefresh
      = 2 * Hour + (5 * Minute - hourlyChecker.RefreshInterval) :=
  (Refresh_failure_timestamp testLib hourlyChecker
    { now := 2 * Hour, fetch := .response 200 "200 OK" (.ok errResponse) } "Error 1000: ERR"
    (by decide) (by decide) (by decide)).1

/-- C8 as stated fails for the interval `1h`: after a refresh that failed at
`now = 2h` the timestamp is not `now - (5 minutes - I)`, and a call six
minutes later, well before one interval has passed, runs a refresh again. -/
theorem Refresh_failure_timestamp_counterexample :
    (hourlyChecker.Refresh testLib
        { now := 2 * Hour, fetch := .response 200 "200 OK" (.ok errResponse) }).2
      = some "Error 1000: ERR" ∧
    (hourlyChecker.Refresh testLib
        { now := 2 * Hour, fetch := .response 200 "200 OK" (.ok errResponse) }).1.lastRefresh
      ≠ 2 * Hour - (5 * Minute - hourlyChecker.RefreshInterval) ∧
    (2 * Hour + 6 * Minute) - 2 * Hour < hourlyChecker.RefreshInterval ∧
    ((hourlyChecker.Refresh testLib
        { now := 2 * Hour, fetch := .response 200 "200 OK" (.ok errResponse) }).1.CheckIP
      testLib (2 * Hour + 6 * Minute)
      { now := 2 * Hour + 6 * Minute, fetch := .response 200 "200 OK" (.ok errResponse) }
      ip_172_16_1_1).refreshed = true := by
  decide

/-- C9, as the code has it: when the refresh triggered by a stale checker
fails during a `CheckIP` call at clock reading `t`, that call returns an
error, but a call that follows at the same reading `t` runs no refresh and
returns no error, answering from the range set held before; a later call
returns an error only when more than 5 minutes have passed since `t`. -/
theorem CheckIP_after_failed_refresh (lib : Stdlib) (c : cloudflareIPChecker) (t : Time)
    (env : RefreshEnv) (ip : IP) (e : Error)
    (hI : c.RefreshInterval > 0) (hmax : c.RefreshInterval ≤ maxDuration)
    (hstale : Time.Sub t c.lastRefresh > c.RefreshInterval)
    (hnow : env.now = t)
    (hfail : (c.Refresh lib env).2 = some e) :
    (c.CheckIP lib t env ip).err = some ("failed to refresh Cloudflare IPs: " ++ e) ∧
    (∀ (env' : RefreshEnv) (ip' : IP),
      (c.CheckIP lib t env ip).checker.CheckIP lib t env' ip'
        = { checker := (c.CheckIP lib t env ip).checker,
            allow := (rangeLoop c.cidrs ip').1, err := none, refreshed := false }) ∧
    (∀ (t' : Time) (env' : RefreshEnv) (ip' : IP) (e' : Error),
      ((c.CheckIP lib t env ip).checker.CheckIP lib t' env' ip').err = some e' →
      t' - t > 5 * Minute) := by
  have h0 : 0 ≤ c.RefreshInterval := le_of_lt hI
  have hr := Refresh_of_error lib c env e hfail
  have hfirst : c.CheckIP lib t env ip
      = { checker := afterFailure c t, allow := false,
          err := some ("failed to refresh Cloudflare IPs: " ++ e), refreshed := true } := by
    unfold cloudflareIPChecker.CheckIP
    rw [if_pos ⟨hI, hstale⟩, hr, hnow]
  rw [hfirst]
  refine ⟨rfl, ?_, ?_⟩
  · intro env' ip'
    have hfresh := afterFailure_not_stale c t t h0 hmax
      (by rw [Minute_eq]; simp only [Duration, Time] at *; omega)
    exact CheckIP_of_fresh lib (afterFailure c t) t env' ip' (fun h => hfresh h.2)
  · intro t' env' ip' e' herr
    by_contra hle
    have hfresh := afterFailure_not_stale c t t' h0 hmax (not_lt.mp hle)
    rw [CheckIP_of_fresh lib (afterFailure c t) t' env' ip' (fun h => hfresh h.2)] at herr
    cases herr

/-- The scenarios "expired with error" and "up-to-date after error" of the
test, one after the other at the same clock reading. -/
theorem CheckIP_after_failed_refresh_witness :
    (testChecker.CheckIP testLib Hour
        { now := Hour, fetch := .response 200 "200 OK" (.ok errResponse) }
        ip_172_16_1_1).err
      = some ("failed to refresh Cloudflare IPs: " ++ "Error 1000: ERR") :=
  (CheckIP_after_failed_refresh testLib testChecker Hour
    { now := Hour, fetch := .response 200 "200 OK" (.ok errResponse) } ip_172_16_1_1
    "Error 1000: ERR" (by decide) (by decide) (by decide) rfl (by decide)).1

/-- C9 as stated fails on the test's own scenario: the checker is stale at
one hour, the refresh fails and the call returns an error, yet the next call
at the same clock reading returns `true` and no error, without a refresh. -/
theorem CheckIP_after_failed_refresh_counterexample :
    (testChecker.RefreshInterval > 0 ∧
      Time.Sub Hour testChecker.lastRefresh > testChecker.RefreshInterval) ∧
    (testChecker.CheckIP testLib Hour
        { now := Hour, fetch := .response 200 "200 OK" (.ok errResponse) }
        ip_172_16_1_1).err
      = some "failed to refresh Cloudflare IPs: Error 1000: ERR" ∧
    ((testChecker.CheckIP testLib Hour
        { now := Hour, fetch := .response 200 "200 OK" (.ok errResponse) }
        ip_172_16_1_1).checker.CheckIP testLib Hour
        { now := Hour, fetch := .response 200 "200 OK" (.ok errResponse) }
        ip_172_16_1_1).err = none ∧
    ((testChecker.CheckIP testLib Hour
        { now := Hour, fetch := .response 200 "200 OK" (.ok errResponse) }
        ip_172_16_1_1).checker.CheckIP testLib Hour
        { now := Hour, fetch := .response 200 "200 OK" (.ok errResponse) }
        ip_172_16_1_1).allow = true ∧
    ((testChecker.CheckIP testLib Hour
        { now := Hour, fetch := .response 200 "200 OK" (.ok errResponse) }
        ip_172_16_1_1).checker.CheckIP testLib Hour
        { now := Hour, fetch := .response 200 "200 OK" (.ok errResponse) }
        ip_172_16_1_1).refreshed = false := by
  decide

/-- C10: with `RefreshInterval = 0`, in every run of `CheckIP` calls, at
whatever clock readings, no call runs a refresh, no call returns an error, the
checker (range set and `lastRefresh`) stays as it was, and each call returns
what `staticIPChecker.CheckIP` over the held range set returns for the same
address. -/
theorem CheckIP_interval_zero (lib : Stdlib) (c : cloudflareIPChecker)
    (calls : List (Time × RefreshEnv × IP)) (hI : c.RefreshInterval = 0) :
    (cloudflareIPChecker.CheckIPs lib c calls).1 = c ∧
    (cloudflareIPChecker.CheckIPs lib c calls).2
      = calls.map (fun call =>
          { checker := c,
            allow := (staticIPChecker.CheckIP { Cidrs := c.cidrs } call.2.2).1,
            err := (staticIPChecker.CheckIP { Cidrs := c.cidrs } call.2.2).2,
            refreshed := false }) ∧
    ∀ out ∈ (cloudflareIPChecker.CheckIPs lib c calls).2,
      out.refreshed = false ∧ out.err = none ∧ out.checker = c := by
  have hall := CheckIPs_of_fresh lib c calls
    (fun call _ h => absurd h.1 (by rw [hI]; exact lt_irrefl _))
  rw [hall]
  refine ⟨rfl, ?_, ?_⟩
  · apply List.map_congr_left
    intro call _
    simp only [staticIPChecker.CheckIP, rangeLoop_snd]
  · intro out hout
    simp only [List.mem_map] at hout
    obtain ⟨call, _, rfl⟩ := hout
    exact ⟨rfl, rfl, rfl⟩

/-- The checker of the test "automatic CIDRs" (interval `0s`), asked a year
and then ten years after its only refresh. -/
theorem CheckIP_interval_zero_witness :
    (cloudflareIPChecker.CheckIPs testLib
        { RefreshInterval := 0, cidrs := [net_172_16_0_0_12, net_2001_db8_2_47],
          lastRefresh := 0 }
        [(8760 * Hour, { now := 8760 * Hour, fetch := .doError "timeout" }, ip_172_16_1_1),
         (87600 * Hour, { now := 87600 * Hour, fetch := .doError "timeout" },
            ip_2001_db8_1_2_1)]).1
      = { RefreshInterval := 0, cidrs := [net_172_16_0_0_12, net_2001_db8_2_47],
          lastRefresh := 0 } :=
  (CheckIP_interval_zero testLib
    { RefreshInterval := 0, cidrs := [net_172_16_0_0_12, net_2001_db8_2_47], lastRefresh := 0 }
    [(8760 * Hour, { now := 8760 * Hour, fetch := .doError "timeout" }, ip_172_16_1_1),
     (87600 * Hour, { now := 87600 * Hour, fetch := .doError "timeout" }, ip_2001_db8_1_2_1)]
    rfl).1

/-! ## Lemmas on the parsing loops -/

theorem first_malformed (lib : Stdlib) :
    ∀ l : List String, (∃ s ∈ l, ∃ e, lib.ParseCIDR s = .error e) →
      ∃ pre s rest ns e, l = pre ++ s :: rest ∧ List.Forall₂ (ParsesTo lib) pre ns ∧
        lib.ParseCIDR s = .error e
  | [], h => by
    obtain ⟨s, hs, _⟩ := h
    cases hs
  | c :: l, h => by
    cases hc : lib.ParseCIDR c with
    | error e => exact ⟨[], c, l, [], e, rfl, List.Forall₂.nil, hc⟩
    | ok n =>
      have htail : ∃ s ∈ l, ∃ e, lib.ParseCIDR s = .error e := by
        obtain ⟨s, hs, e, he⟩ := h
        rcases List.mem_cons.mp hs with rfl | hmem
        · rw [hc] at he
          cases he
        · exact ⟨s, hmem, e, he⟩
      obtain ⟨pre, s, rest, ns, e, hl, hpre, he⟩ := first_malformed lib l htail
      exact ⟨c :: pre, s, rest, n :: ns, e, by rw [hl]; rfl, List.Forall₂.cons hc hpre, he⟩

theorem Data_parse_append (lib : Stdlib) :
    ∀ (a b : List String) (res : List IPNet),
      cloudflareResponse.Data.parse lib (a ++ b) res
        = match cloudflareResponse.Data.parse lib a res with
          | .error err => .error err
          | .ok mid => cloudflareResponse.Data.parse lib b mid
  | [], b, res => rfl
  | c :: a, b, res => by
    simp only [List.cons_append, cloudflareResponse.Data.parse]
    cases hc : lib.ParseCIDR c with
    | error err => rfl
    | ok cidr => exact Data_parse_append lib a b (res ++ [cidr])

theorem Data_parse_error_first (lib : Stdlib) (s : String) (rest : List String) (e : Error)
    (hs : lib.ParseCIDR s = .error e) :
    ∀ (pre : List String) (ns res : List IPNet), List.Forall₂ (ParsesTo lib) pre ns →
      cloudflareResponse.Data.parse lib (pre ++ s :: rest) res = .error e
  | [], _, res, _ => by
    simp only [List.nil_append, cloudflareResponse.Data.parse, hs]
  | c :: pre, _, res, List.Forall₂.cons hc hpre => by
    unfold ParsesTo at hc
    simp only [List.cons_append, cloudflareResponse.Data.parse, hc]
    exact Data_parse_error_first lib s rest e hs pre _ _ hpre

theorem New_parse_ok_iff (lib : Stdlib) (l : List String) (res out : List IPNet) :
    New.parse lib l res = .ok out
      ↔ ∃ ns, List.Forall₂ (ParsesTo lib) l ns ∧ out = res ++ ns := by
  induction l generalizing res with
  | nil =>
    simp only [New.parse, Except.ok.injEq]
    constructor
    · intro h
      exact ⟨[], List.Forall₂.nil, by simp [h]⟩
    · rintro ⟨ns, hns, rfl⟩
      cases hns
      simp
  | cons c rest ih =>
    unfold New.parse
    cases hc : lib.ParseCIDR c with
    | error err =>
      simp only
      constructor
      · intro h
        cases h
      · rintro ⟨ns, hns, _⟩
        cases hns with
        | cons h _ =>
          unfold ParsesTo at h
          rw [hc] at h
          cases h
    | ok cidr =>
      simp only
      rw [ih]
      constructor
      · rintro ⟨ns, hns, rfl⟩
        exact ⟨cidr :: ns, List.Forall₂.cons hc hns, by simp⟩
      · rintro ⟨ns, hns, rfl⟩
        cases hns with
        | cons h htl =>
          rename_i n tl
          unfold ParsesTo at h
          rw [hc] at h
          cases h
          exact ⟨tl, htl, by simp⟩

theorem New_parse_error_first (lib : Stdlib) (s : String) (rest : List String) (e : Error)
    (hs : lib.ParseCIDR s = .error e) :
    ∀ (pre : List String) (ns res : List IPNet), List.Forall₂ (ParsesTo lib) pre ns →
      New.parse lib (pre ++ s :: rest) res = .error ("invalid CIDR: " ++ e)
  | [], _, res, _ => by
    simp only [List.nil_append, New.parse, hs]
  | c :: pre, _, res, List.Forall₂.cons hc hpre => by
    unfold ParsesTo at hc
    simp only [List.cons_append, New.parse, hc]
    exact New_parse_error_first lib s rest e hs pre _ _ hpre

theorem New_of_static (lib : Stdlib) (ParseDuration : String → Except Error Duration)
    (env : RefreshEnv) (config : Config) (name : String) (hne : config.TrustedCIDRs ≠ []) :
    New lib ParseDuration env (some config) name
      = match New.parse lib config.TrustedCIDRs [] with
        | .error err => { handler := none, err := some err, refreshed := false }
        | .ok cidrs =>
          { handler := some { name := name, checker := .static { Cidrs := cidrs },
                              overwriteForwardedFor := config.OverwriteForwardedFor },
            err := none, refreshed := false } := by
  have hlen : config.TrustedCIDRs.length > 0 := List.length_pos.mpr hne
  simp only [New, hlen, if_true]

theorem New_of_refreshing (lib : Stdlib) (ParseDuration : String → Except Error Duration)
    (env : RefreshEnv) (config : Config) (name : String) (d : Duration)
    (hempty : config.TrustedCIDRs = []) (hparse : ParseDuration config.RefreshInterval = .ok d) :
    New lib ParseDuration env (some config) name
      = match cloudflareIPChecker.Refresh lib
            { RefreshInterval := New.clamp d, cidrs := [], lastRefresh := zeroTime } env with
        | (_, some err) =>
          { handler := none, err := some ("failed to refresh Cloudflare IPs: " ++ err),
            refreshed := true }
        | (checker', none) =>
          { handler := some { name := name, checker := .cloudflare checker',
                              overwriteForwardedFor := config.OverwriteForwardedFor },
            err := none, refreshed := true } := by
  simp only [New, hempty, List.length_nil, gt_iff_lt, lt_self_iff_false, if_false, hparse]

/-! ## Construction -/

/-- C11: the interval `New` gives the refreshing checker for a parsed
duration `d` is 0 when `d <= 0`, 5 minutes when `0 < d < 5 minutes`, and `d`
when `d >= 5 minutes`; so it is 0 or at least 5 minutes, and clamping it again
changes nothing. This is the `RefreshInterval` of the checker in the handler
that `New` returns. -/
theorem New_clamps_refresh_interval (d : Duration) :
    (d ≤ 0 → New.clamp d = 0) ∧
    (0 < d → d < 5 * Minute → New.clamp d = 5 * Minute) ∧
    (5 * Minute ≤ d → New.clamp d = d) ∧
    (New.clamp d = 0 ∨ 5 * Minute ≤ New.clamp d) ∧
    New.clamp (New.clamp d) = New.clamp d ∧
    ∀ (lib : Stdlib) (ParseDuration : String → Except Error Duration) (env : RefreshEnv)
      (config : Config) (name : String) (h : Cloudflare),
      config.TrustedCIDRs = [] → ParseDuration config.RefreshInterval = .ok d →
      (New lib ParseDuration env (some config) name).handler = some h →
      ∃ k, h.checker = .cloudflare k ∧ k.RefreshInterval = New.clamp d := by
  have hmin : minRefresh = (300000000000 : Int) := by decide
  have h5 : 5 * Minute = (300000000000 : Int) := by decide
  refine ⟨?_, ?_, ?_, ?_, ?_, ?_⟩
  · intro h
    simp [New.clamp, h]
  · intro h0 h1
    rw [h5] at h1 ⊢
    simp only [New.clamp, hmin, not_le.mpr h0, if_false, h1, if_true]
  · intro h1
    rw [h5] at h1
    have h0 : ¬ d ≤ 0 := by
      simp only [Duration] at *
      omega
    simp only [New.clamp, hmin, h0, if_false, not_lt.mpr h1]
  · rw [h5]
    unfold New.clamp
    rw [hmin]
    simp only [Duration] at *
    split
    · exact Or.inl rfl
    · split
      · exact Or.inr (le_refl _)
      · right
        omega
  · unfold New.clamp
    rw [hmin]
    simp only [Duration] at *
    split
    · simp
    · split
      · simp
      · rename_i h0 h1
        simp [h0, h1]
  · intro lib ParseDuration env config name h hempty hparse hnew
    rw [New_of_refreshing lib ParseDuration env config name d hempty hparse] at hnew
    rcases Refresh_cases lib
        { RefreshInterval := New.clamp d, cidrs := [], lastRefresh := zeroTime } env
      with ⟨e, he⟩ | ⟨_, _, _, S', _, _, _, _, hok⟩
    · rw [he] at hnew
      cases hnew
    · rw [hok] at hnew
      simp only [Option.some.injEq] at hnew
      subst hnew
      exact ⟨_, rfl, rfl⟩

/-- A configured `1m` is raised to five minutes, also in the handler `New`
returns; a configured `24h` is kept. -/
theorem New_clamps_refresh_interval_witness :
    New.clamp Minute = 5 * Minute ∧
    New.clamp (24 * Hour) = 24 * Hour ∧
    ∃ k, (Cloudflare.mk "cloudflare"
            (.cloudflare { RefreshInterval := 5 * Minute,
                           cidrs := [net_172_16_0_0_12, net_2001_db8_2_47], lastRefresh := 7 })
            false).checker = .cloudflare k ∧
      k.RefreshInterval = New.clamp Minute :=
  ⟨(New_clamps_refresh_interval Minute).2.1 (by decide) (by decide),
   (New_clamps_refresh_interval (24 * Hour)).2.2.1 (by decide),
   (New_clamps_refresh_interval Minute).2.2.2.2.2 testLib testParseDuration
    { now := 7, fetch := .response 200 "200 OK" (.ok wideResponse) }
    { TrustedCIDRs := [], RefreshInterval := "1m", OverwriteForwardedFor := false }
    "cloudflare" _ rfl rfl rfl⟩

/-- C12: for a config with a non-empty `TrustedCIDRs`: when some entry, at
any position, does not parse, `New` returns no handler and an error (the
wrapped error of the first such entry); when every entry parses, `New`
returns, without error, a handler whose static checker holds the parsed
ranges in the configured order; and a handler is returned only then. -/
theorem New_static_all_or_nothing (lib : Stdlib)
    (ParseDuration : String → Except Error Duration) (env : RefreshEnv) (config : Config)
    (name : String) (hne : config.TrustedCIDRs ≠ []) :
    (∀ s ∈ config.TrustedCIDRs, ∀ e, lib.ParseCIDR s = .error e →
      (New lib ParseDuration env (some config) name).handler = none ∧
      ∃ e', (New lib ParseDuration env (some config) name).err = some e') ∧
    (∀ pre s rest ns e, config.TrustedCIDRs = pre ++ s :: rest →
      List.Forall₂ (ParsesTo lib) pre ns → lib.ParseCIDR s = .error e →
      New lib ParseDuration env (some config) name
        = { handler := none, err := some ("invalid CIDR: " ++ e), refreshed := false }) ∧
    (∀ S, List.Forall₂ (ParsesTo lib) config.TrustedCIDRs S →
      New lib ParseDuration env (some config) name
        = { handler := some { name := name, checker := .static { Cidrs := S },
                              overwriteForwardedFor := config.OverwriteForwardedFor },
            err := none, refreshed := false }) ∧
    (∀ h, (New lib ParseDuration env (some config) name).handler = some h →
      ∃ S, List.Forall₂ (ParsesTo lib) config.TrustedCIDRs S ∧
        h.checker = .static { Cidrs := S }) := by
  have hnew := New_of_static lib ParseDuration env config name hne
  have hfirst : ∀ pre s rest ns e, config.TrustedCIDRs = pre ++ s :: rest →
      List.Forall₂ (ParsesTo lib) pre ns → lib.ParseCIDR s = .error e →
      New lib ParseDuration env (some config) name
        = { handler := none, err := some ("invalid CIDR: " ++ e), refreshed := false } := by
    intro pre s rest ns e hl hpre hs
    rw [hnew, hl, New_parse_error_first lib s rest e hs pre ns [] hpre]
  refine ⟨?_, hfirst, ?_, ?_⟩
  · intro s hs e he
    obtain ⟨pre, s', rest, ns, e', hl, hpre, he'⟩ :=
      first_malformed lib config.TrustedCIDRs ⟨s, hs, e, he⟩
    rw [hfirst pre s' rest ns e' hl hpre he']
    exact ⟨rfl, _, rfl⟩
  · intro S hS
    have hok : New.parse lib config.TrustedCIDRs [] = .ok S :=
      (New_parse_ok_iff lib _ _ _).mpr ⟨S, hS, by simp⟩
    rw [hnew, hok]
  · intro h hh
    rw [hnew] at hh
    cases hp : New.parse lib config.TrustedCIDRs [] with
    | error err =>
      rw [hp] at hh
      cases hh
    | ok cidrs =>
      rw [hp] at hh
      simp only [Option.some.injEq] at hh
      subst hh
      obtain ⟨ns, hns, rfl⟩ := (New_parse_ok_iff lib _ _ _).mp hp
      exact ⟨_, hns, rfl⟩

/-- The config of the test "static CIDRs" yields the static checker over the
two parsed ranges. -/
theorem New_static_all_or_nothing_witness :
    New testLib testParseDuration { now := 0, fetch := .doError "unused" } (some staticConfig)
        "cloudflare"
      = { handler := some { name := "cloudflare",
                            checker := .static
                              { Cidrs := [net_172_16_0_0_12, net_2001_db8_2_47] },
                            overwriteForwardedFor := false },
          err := none, refreshed := false } :=
  (New_static_all_or_nothing testLib testParseDuration { now := 0, fetch := .doError "unused" }
    staticConfig "cloudflare" (by decide)).2.2.1 [net_172_16_0_0_12, net_2001_db8_2_47]
    (List.Forall₂.cons rfl (List.Forall₂.cons rfl List.Forall₂.nil))

/-- C13: for a config with empty `TrustedCIDRs` and a `RefreshInterval` that
parses (to `d`), `New` returns a handler exactly when the initial `Refresh`
returns no error. When it returns an error, `New` returns that error wrapped
and no handler; when the fetch succeeds with the parsed range set `S'`, the
checker of the returned handler holds `S'` and its `lastRefresh` is the clock
reading `Refresh` took. -/
theorem New_refreshing_iff_refresh_succeeds (lib : Stdlib)
    (ParseDuration : String → Except Error Duration) (env : RefreshEnv) (config : Config)
    (name : String) (d : Duration)
    (hempty : config.TrustedCIDRs = [])
    (hparse : ParseDuration config.RefreshInterval = .ok d) :
    ((∃ h, (New lib ParseDuration env (some config) name).handler = some h)
      ↔ (cloudflareIPChecker.Refresh lib
          { RefreshInterval := New.clamp d, cidrs := [], lastRefresh := zeroTime } env).2
          = none) ∧
    (∀ e, (cloudflareIPChecker.Refresh lib
          { RefreshInterval := New.clamp d, cidrs := [], lastRefresh := zeroTime } env).2
          = some e →
      New lib ParseDuration env (some config) name
        = { handler := none, err := some ("failed to refresh Cloudflare IPs: " ++ e),
            refreshed := true }) ∧
    (∀ code status resp S', env.fetch = .response code status (.ok resp) →
      200 ≤ code → code ≤ 299 → resp.Data lib = .ok S' →
      New lib ParseDuration env (some config) name
        = { handler := some
              { name := name,
                checker := .cloudflare
                  { RefreshInterval := New.clamp d, cidrs := S', lastRefresh := env.now },
                overwriteForwardedFor := config.OverwriteForwardedFor },
            err := none, refreshed := true }) ∧
    ((New lib ParseDuration env (some config) name).handler = none
      ↔ ∃ e, (New lib ParseDuration env (some config) name).err = some e) := by
  rw [New_of_refreshing lib ParseDuration env config name d hempty hparse]
  rcases Refresh_cases lib
      { RefreshInterval := New.clamp d, cidrs := [], lastRefresh := zeroTime } env
    with ⟨e, he⟩ | ⟨code, status, resp, S', hf, hlo, hhi, hd, hok⟩
  · rw [he]
    refine ⟨?_, ?_, ?_, ?_⟩
    · constructor
      · rintro ⟨h, hh⟩
        cases hh
      · intro hn
        cases hn
    · intro e' he'
      simp only [Option.some.injEq] at he'
      rw [he']
    · intro code status resp S' hf hlo hhi hd
      have hok := Refresh_of_ok lib
        { RefreshInterval := New.clamp d, cidrs := [], lastRefresh := zeroTime } env
        code status resp S' hf hlo hhi hd
      rw [he] at hok
      have hsnd := congrArg Prod.snd hok
      cases hsnd
    · exact ⟨fun _ => ⟨_, rfl⟩, fun _ => rfl⟩
  · rw [hok]
    refine ⟨?_, ?_, ?_, ?_⟩
    · exact ⟨fun _ => rfl, fun _ => ⟨_, rfl⟩⟩
    · intro e' he'
      cases he'
    · intro code' status' resp' S'' hf' hlo' hhi' hd'
      rw [hf] at hf'
      injection hf' with _ _ hbody
      injection hbody with hresp
      subst hresp
      rw [hd] at hd'
      injection hd' with hS
      subst hS
      rfl
    · constructor
      · intro hn
        cases hn
      · rintro ⟨e', he'⟩
        cases he'

/-- The construction of the test "automatic CIDRs periodic update", and the
same construction when the authority answers with the error payload. -/
theorem New_refreshing_iff_refresh_succeeds_witness :
    New testLib testParseDuration { now := 7, fetch := .response 200 "200 OK" (.ok wideResponse) }
        (some periodicConfig) "cloudflare"
      = { handler := some
            { name := "cloudflare",
              checker := .cloudflare
                { RefreshInterval := New.clamp (5 * Minute),
                  cidrs := [net_172_16_0_0_12, net_2001_db8_2_47], lastRefresh := 7 },
              overwriteForwardedFor := false },
          err := none, refreshed := true } ∧
    New testLib testParseDuration { now := 7, fetch := .response 200 "200 OK" (.ok errResponse) }
        (some periodicConfig) "cloudflare"
      = { handler := none,
          err := some ("failed to refresh Cloudflare IPs: " ++ "Error 1000: ERR"),
          refreshed := true } :=
  ⟨(New_refreshing_iff_refresh_succeeds testLib testParseDuration
      { now := 7, fetch := .response 200 "200 OK" (.ok wideResponse) } periodicConfig
      "cloudflare" (5 * Minute) rfl rfl).2.2.1 200 "200 OK" wideResponse
      [net_172_16_0_0_12, net_2001_db8_2_47] rfl (by decide) (by decide) rfl,
   (New_refreshing_iff_refresh_succeeds testLib testParseDuration
      { now := 7, fetch := .response 200 "200 OK" (.ok errResponse) } periodicConfig
      "cloudflare" (5 * Minute) rfl rfl).2.1 "Error 1000: ERR" (by decide)⟩

/-- C17: for a config with a non-empty `TrustedCIDRs`, what `New` returns
does not depend on `RefreshInterval` (nor on how `time.ParseDuration` treats
it, nor on the clock and the network), and `New` runs no refresh; a handler
with the refreshing checker comes only from a config whose `TrustedCIDRs` is
empty. -/
theorem New_static_ignores_refresh_interval (lib : Stdlib)
    (ParseDuration ParseDuration' : String → Except Error Duration) (env env' : RefreshEnv)
    (config : Config) (name : String) (ri' : String)
    (hne : config.TrustedCIDRs ≠ []) :
    New lib ParseDuration env (some config) name
      = New lib ParseDuration' env' (some { config with RefreshInterval := ri' }) name ∧
    (New lib ParseDuration env (some config) name).refreshed = false ∧
    (∀ h, (New lib ParseDuration env (some config) name).handler = some h →
      ∃ S, h.checker = .static { Cidrs := S }) ∧
    (∀ (config' : Config) (h : Cloudflare) (k : cloudflareIPChecker),
      (New lib ParseDuration env (some config') name).handler = some h →
      h.checker = .cloudflare k → config'.TrustedCIDRs = []) := by
  have hnew := New_of_static lib ParseDuration env config name hne
  have hnew' := New_of_static lib ParseDuration' env' { config with RefreshInterval := ri' }
    name hne
  have hstatic : ∀ (config' : Config), config'.TrustedCIDRs ≠ [] →
      ∀ h, (New lib ParseDuration env (some config') name).handler = some h →
      ∃ S, h.checker = .static { Cidrs := S } := by
    intro config' hne' h hh
    rw [New_of_static lib ParseDuration env config' name hne'] at hh
    cases hp : New.parse lib config'.TrustedCIDRs [] with
    | error err =>
      rw [hp] at hh
      cases hh
    | ok cidrs =>
      rw [hp] at hh
      simp only [Option.some.injEq] at hh
      subst hh
      exact ⟨cidrs, rfl⟩
  refine ⟨?_, ?_, hstatic config hne, ?_⟩
  · rw [hnew, hnew']
  · rw [hnew]
    cases New.parse lib config.TrustedCIDRs [] <;> rfl
  · intro config' h k hh hk
    by_contra hne'
    obtain ⟨S, hS⟩ := hstatic config' hne' h hh
    rw [hS] at hk
    cases hk

/-- The config of the test "static CIDRs" with the default `24h` and with a
string that is no duration: the same handler, and no refresh. -/
theorem New_static_ignores_refresh_interval_witness :
    New testLib testParseDuration { now := 0, fetch := .doError "unused" } (some staticConfig)
        "cloudflare"
      = New testLib testParseDuration
          { now := 9, fetch := .response 200 "200 OK" (.ok narrowResponse) }
          (some { staticConfig with RefreshInterval := "soon" }) "cloudflare" ∧
    (New testLib testParseDuration { now := 0, fetch := .doError "unused" } (some staticConfig)
        "cloudflare").refreshed = false :=
  ⟨(New_static_ignores_refresh_interval testLib testParseDuration testParseDuration
      { now := 0, fetch := .doError "unused" }
      { now := 9, fetch := .response 200 "200 OK" (.ok narrowResponse) }
      staticConfig "cloudflare" "soon" (by decide)).1,
   (New_static_ignores_refresh_interval testLib testParseDuration testParseDuration
      { now := 0, fetch := .doError "unused" }
      { now := 9, fetch := .response 200 "200 OK" (.ok narrowResponse) }
      staticConfig "cloudflare" "soon" (by decide)).2.1⟩

/-! ## The response of the authority -/

theorem failure_of_first (e : cloudflareError) (rest : List (Option cloudflareError)) :
    ∀ pre : List (Option cloudflareError), (∀ x ∈ pre, x = none) →
      cloudflareResponse.Data.failure (pre ++ some e :: rest)
        = "Error " ++ toString e.Code ++ ": " ++ e.Message
  | [], _ => rfl
  | x :: pre, h => by
    have hx : x = none := h x (List.mem_cons_self _ _)
    subst hx
    simp only [List.cons_append, cloudflareResponse.Data.failure, cloudflareError.Error]
    exact failure_of_first e rest pre (fun y hy => h y (List.mem_cons_of_mem _ hy))

theorem failure_of_all_nil :
    ∀ l : List (Option cloudflareError), (∀ x ∈ l, x = none) →
      cloudflareResponse.Data.failure l = "invalid response"
  | [], _ => rfl
  | x :: l, h => by
    have hx : x = none := h x (List.mem_cons_self _ _)
    subst hx
    simp only [cloudflareResponse.Data.failure, cloudflareError.Error]
    exact failure_of_all_nil l (fun y hy => h y (List.mem_cons_of_mem _ hy))

theorem Data_of_failure (lib : Stdlib) (r : cloudflareResponse)
    (hbad : r.Success = false ∨ r.Result = none) :
    r.Data lib = .error (cloudflareResponse.Data.failure r.Errors) := by
  unfold cloudflareResponse.Data
  rcases hbad with hs | hr
  · cases hres : r.Result with
    | none => rfl
    | some res => simp [hs]
  · rw [hr]

theorem Data_of_success (lib : Stdlib) (r : cloudflareResponse) (res : cloudflareIPs)
    (hs : r.Success = true) (hr : r.Result = some res) :
    r.Data lib = cloudflareResponse.Data.parse lib (res.IPv4CIDRs ++ res.IPv6CIDRs) [] := by
  unfold cloudflareResponse.Data
  rw [hr, Data_parse_append]
  simp only [hs, Bool.not_true, Bool.false_eq_true, if_false]

theorem all_parse_forall₂ (lib : Stdlib) :
    ∀ l : List String, (∀ s ∈ l, ∃ n, lib.ParseCIDR s = .ok n) →
      ∃ ns, List.Forall₂ (ParsesTo lib) l ns
  | [], _ => ⟨[], List.Forall₂.nil⟩
  | c :: l, h => by
    obtain ⟨n, hn⟩ := h c (List.mem_cons_self _ _)
    obtain ⟨ns, hns⟩ := all_parse_forall₂ lib l (fun s hs => h s (List.mem_cons_of_mem _ hs))
    exact ⟨n :: ns, List.Forall₂.cons hn hns⟩

/-- C15, as the code has it: for a response with `success` false or without
`result`, `Data` returns an error and no range set; the error is
`"Error <code>: <message>"` of the first entry of the error list that is not
`null`, and the generic `"invalid response"` when the list is empty or holds
only `null` entries. -/
theorem Data_failure_error (lib : Stdlib) (r : cloudflareResponse)
    (hbad : r.Success = false ∨ r.Result = none) :
    (∀ S, r.Data lib ≠ .ok S) ∧
    (∀ pre e rest, r.Errors = pre ++ some e :: rest → (∀ x ∈ pre, x = none) →
      r.Data lib = .error ("Error " ++ toString e.Code ++ ": " ++ e.Message)) ∧
    ((∀ x ∈ r.Errors, x = none) → r.Data lib = .error "invalid response") := by
  have hd := Data_of_failure lib r hbad
  rw [hd]
  refine ⟨?_, ?_, ?_⟩
  · intro S h
    cases h
  · intro pre e rest hl hpre
    rw [hl, failure_of_first e rest pre hpre]
  · intro hall
    rw [failure_of_all_nil r.Errors hall]

/-- The error payload of the test: the first entry of the list is reported. -/
theorem Data_failure_error_witness :
    errResponse.Data testLib = .error ("Error " ++ toString (1000 : Int) ++ ": " ++ "ERR") :=
  (Data_failure_error testLib errResponse (Or.inl rfl)).2.1 [] { Code := 1000, Message := "ERR" }
    [] rfl (by decide)

/-- C15 as stated fails when the error list starts with a `null` entry (the
body `{"success":false,"errors":[null,{"code":1000,"message":"ERR"}]}`): the
error reported is that of the second entry; and with the list `[null]`, which
is not empty, the error is the generic one. -/
theorem Data_failure_error_counterexample :
    cloudflareResponse.Data testLib
        { Success := false, Errors := [none, some { Code := 1000, Message := "ERR" }],
          Result := none }
      = .error "Error 1000: ERR" ∧
    ([none, some { Code := 1000, Message := "ERR" }] : List (Option cloudflareError)).head?
      = some none ∧
    cloudflareResponse.Data testLib { Success := false, Errors := [none], Result := none }
      = .error "invalid response" ∧
    ([none] : List (Option cloudflareError)) ≠ [] :=
  ⟨rfl, rfl, rfl, by decide⟩

/-- C16: for a response with `success` true and a `result`, `Data` succeeds
exactly when every string of `ipv4_cidrs` and `ipv6_cidrs` parses; the list it
returns is the parsed `ipv4_cidrs` in order followed by the parsed
`ipv6_cidrs` in order, of length the sum of the two lengths; otherwise it
returns the parse error of the first entry, in that order, that does not
parse, and no list. -/
theorem Data_success_parses_all (lib : Stdlib) (r : cloudflareResponse) (res : cloudflareIPs)
    (hs : r.Success = true) (hr : r.Result = some res) :
    ((∃ S, r.Data lib = .ok S)
      ↔ ∀ s ∈ res.IPv4CIDRs ++ res.IPv6CIDRs, ∃ n, lib.ParseCIDR s = .ok n) ∧
    (∀ S, r.Data lib = .ok S →
      (∃ S4 S6, S = S4 ++ S6 ∧ List.Forall₂ (ParsesTo lib) res.IPv4CIDRs S4 ∧
        List.Forall₂ (ParsesTo lib) res.IPv6CIDRs S6) ∧
      S.length = res.IPv4CIDRs.length + res.IPv6CIDRs.length) ∧
    (∀ S4 S6, List.Forall₂ (ParsesTo lib) res.IPv4CIDRs S4 →
      List.Forall₂ (ParsesTo lib) res.IPv6CIDRs S6 → r.Data lib = .ok (S4 ++ S6)) ∧
    (∀ pre s rest ns e, res.IPv4CIDRs ++ res.IPv6CIDRs = pre ++ s :: rest →
      List.Forall₂ (ParsesTo lib) pre ns → lib.ParseCIDR s = .error e →
      r.Data lib = .error e) := by
  have hiff := Data_ok_iff lib r
  refine ⟨?_, ?_, ?_, ?_⟩
  · constructor
    · rintro ⟨S, hS⟩ s hmem
      obtain ⟨_, res', hres', hall⟩ := (hiff S).mp hS
      rw [hr] at hres'
      injection hres' with hres'
      subst hres'
      obtain ⟨n, _, hn⟩ := exists_parsed hall hmem
      exact ⟨n, hn⟩
    · intro hall
      obtain ⟨ns, hns⟩ := all_parse_forall₂ lib _ hall
      exact ⟨ns, (hiff ns).mpr ⟨hs, res, hr, hns⟩⟩
  · intro S hS
    obtain ⟨_, res', hres', hall⟩ := (hiff S).mp hS
    rw [hr] at hres'
    injection hres' with hres'
    subst hres'
    obtain ⟨S4, S6, rfl, h4, h6⟩ := forall₂_append_split hall
    refine ⟨⟨S4, S6, rfl, h4, h6⟩, ?_⟩
    rw [List.length_append, h4.length_eq, h6.length_eq]
  · intro S4 S6 h4 h6
    exact (hiff (S4 ++ S6)).mpr ⟨hs, res, hr, List.rel_append h4 h6⟩
  · intro pre s rest ns e hl hpre he
    rw [Data_of_success lib r res hs hr, hl]
    exact Data_parse_error_first lib s rest e he pre ns [] hpre

/-- The successful body of the test: one IPv4 range, then one IPv6 range. -/
theorem Data_success_parses_all_witness :
    wideResponse.Data testLib = .ok ([net_172_16_0_0_12] ++ [net_2001_db8_2_47]) :=
  (Data_success_parses_all testLib wideResponse
    { IPv4CIDRs := ["172.16.0.0/12"], IPv6CIDRs := ["2001:db8:2::/47"] } rfl rfl).2.2.1
    [net_172_16_0_0_12] [net_2001_db8_2_47]
    (List.Forall₂.cons rfl List.Forall₂.nil) (List.Forall₂.cons rfl List.Forall₂.nil)

/-! ## The header rewrite -/

theorem Header_Set_lookup_self (h : Header) (key value : String) :
    (Header.Set h key value).lookup key = some [value] := by
  simp [Header.Set, List.lookup]

theorem Header_Set_entries (h : Header) (key value : String) :
    ∀ e ∈ Header.Set h key value, e.1 = key → e.2 = [value] := by
  intro e he hk
  simp only [Header.Set, List.mem_cons, List.mem_filter] at he
  rcases he with rfl | ⟨_, hne⟩
  · rfl
  · simp [hk] at hne

theorem Header_Set_lookup_other (key value k : String) (hk : k ≠ key) :
    ∀ h : Header, (Header.Set h key value).lookup k = h.lookup k := by
  have hbeq : (k == key) = false := by simpa using hk
  intro h
  simp only [Header.Set, List.lookup, hbeq]
  induction h with
  | nil => rfl
  | cons e rest ih =>
    obtain ⟨k', v'⟩ := e
    by_cases hk' : k' = key
    · subst hk'
      simp [List.filter, List.lookup, hbeq, ih]
    · have hne : (k' != key) = true := by simpa using hk'
      simp only [List.filter, hne, List.lookup]
      cases k == k' <;> simp [ih]

theorem Header_Get_Set_self (h : Header) (key value : String) :
    Header.Get (Header.Set h key value) key = value := by
  simp [Header.Get, Header_Set_lookup_self]

theorem ServeHTTP_of_trusted (lib : Stdlib) (c : Cloudflare) (now : Time) (env : RefreshEnv)
    (r : Request) (host port : String) (sip : IP)
    (hs : lib.SplitHostPort r.RemoteAddr = .ok (host, port))
    (hp : lib.ParseIP host = some sip)
    (he : (c.checker.CheckIP lib now env sip).err = none)
    (ha : (c.checker.CheckIP lib now env sip).allow = true) :
    c.ServeHTTP lib now env r
      = if c.overwriteForwardedFor = true then
          if r.Header.Get keyCFConnectingIP = "" then
            { handler := { c with checker := (c.checker.CheckIP lib now env sip).checker },
              request := r, served := .error "Bad Request" 400, logged := none,
              refreshed := (c.checker.CheckIP lib now env sip).refreshed }
          else
            { handler := { c with checker := (c.checker.CheckIP lib now env sip).checker },
              request :=
                { r with Header :=
                    r.Header.Set keyXForwardedFor (r.Header.Get keyCFConnectingIP) },
              served := .next
                { r with Header :=
                    r.Header.Set keyXForwardedFor (r.Header.Get keyCFConnectingIP) },
              logged := none,
              refreshed := (c.checker.CheckIP lib now env sip).refreshed }
        else
          { handler := { c with checker := (c.checker.CheckIP lib now env sip).checker },
            request := r, served := .next r, logged := none,
            refreshed := (c.checker.CheckIP lib now env sip).refreshed } := by
  by_cases ho : c.overwriteForwardedFor = true
  · by_cases hg : r.Header.Get keyCFConnectingIP = ""
    · simp [Cloudflare.ServeHTTP, hs, hp, he, ha, ho, overwriteForwardedFor, hg, StatusText]
    · simp [Cloudflare.ServeHTTP, hs, hp, he, ha, ho, overwriteForwardedFor, hg]
  · simp [Cloudflare.ServeHTTP, hs, hp, he, ha, ho]

/-- C14, as the code has it: when a request is trusted (its `RemoteAddr`
yields an IP for which the checker returns `(true, nil)`),
`overwriteForwardedFor` is on and the request carries `CF-Connecting-IP` with
a value `V` that is not empty (`Header.Get` yields `V`, not `""`), then
whatever `X-Forwarded-For` held before, the request is passed to the next
handler with `X-Forwarded-For` holding the single value `V`; no other entry
under that key remains. -/
theorem ServeHTTP_overwrites_forwarded_for (lib : Stdlib) (c : Cloudflare) (now : Time)
    (env : RefreshEnv) (r : Request) (host port : String) (sip : IP) (V : String)
    (hs : lib.SplitHostPort r.RemoteAddr = .ok (host, port))
    (hp : lib.ParseIP host = some sip)
    (he : (c.checker.CheckIP lib now env sip).err = none)
    (ha : (c.checker.CheckIP lib now env sip).allow = true)
    (ho : c.overwriteForwardedFor = true)
    (hV : r.Header.Get keyCFConnectingIP = V) (hne : V ≠ "") :
    (c.ServeHTTP lib now env r).served = .next (c.ServeHTTP lib now env r).request ∧
    (c.ServeHTTP lib now env r).request.Header.lookup keyXForwardedFor = some [V] ∧
    (∀ e ∈ (c.ServeHTTP lib now env r).request.Header, e.1 = keyXForwardedFor → e.2 = [V]) ∧
    (c.ServeHTTP lib now env r).request.Header.Get keyXForwardedFor = V ∧
    (c.ServeHTTP lib now env r).request.RemoteAddr = r.RemoteAddr := by
  have hg : ¬ r.Header.Get keyCFConnectingIP = "" := by
    rw [hV]
    exact hne
  rw [ServeHTTP_of_trusted lib c now env r host port sip hs hp he ha, if_pos ho, if_neg hg, hV]
  exact ⟨rfl, Header_Set_lookup_self _ _ _, Header_Set_entries _ _ _,
    Header_Get_Set_self _ _ _, rfl⟩

/-- The scenario "overwrite" of the test: `2.2.2.2, 3.3.3.3` is replaced by
`1.2.3.4`. -/
theorem ServeHTTP_overwrites_forwarded_for_witness :
    (overwriteHandler.ServeHTTP testLib 0 { now := 0, fetch := .doError "unused" }
        overwriteRequest).request.Header.lookup keyXForwardedFor = some ["1.2.3.4"] ∧
    (overwriteHandler.ServeHTTP testLib 0 { now := 0, fetch := .doError "unused" }
        overwriteRequest).served
      = .next (overwriteHandler.ServeHTTP testLib 0 { now := 0, fetch := .doError "unused" }
          overwriteRequest).request :=
  ⟨(ServeHTTP_overwrites_forwarded_for testLib overwriteHandler 0
      { now := 0, fetch := .doError "unused" } overwriteRequest "172.16.1.1" "42"
      ip_172_16_1_1 "1.2.3.4" rfl (by decide) (by decide) (by decide) (by decide) (by decide)
      (by decide)).2.1,
   (ServeHTTP_overwrites_forwarded_for testLib overwriteHandler 0
      { now := 0, fetch := .doError "unused" } overwriteRequest "172.16.1.1" "42"
      ip_172_16_1_1 "1.2.3.4" rfl (by decide) (by decide) (by decide) (by decide) (by decide)
      (by decide)).1⟩

/-- C14 as stated fails for the value `""`: a trusted request that carries
`CF-Connecting-IP` with the empty value, handled with `overwriteForwardedFor`
on, is answered with 400 instead of being passed on, and its
`X-Forwarded-For` keeps the earlier values instead of holding `""`. -/
theorem ServeHTTP_overwrites_forwarded_for_counterexample :
    emptyValueRequest.Header.lookup keyCFConnectingIP = some [""] ∧
    overwriteHandler.overwriteForwardedFor = true ∧
    testLib.ParseIP "172.16.1.1" = some ip_172_16_1_1 ∧
    (overwriteHandler.checker.CheckIP testLib 0 { now := 0, fetch := .doError "unused" }
        ip_172_16_1_1).allow = true ∧
    (overwriteHandler.checker.CheckIP testLib 0 { now := 0, fetch := .doError "unused" }
        ip_172_16_1_1).err = none ∧
    (overwriteHandler.ServeHTTP testLib 0 { now := 0, fetch := .doError "unused" }
        emptyValueRequest).served = .error "Bad Request" 400 ∧
    (overwriteHandler.ServeHTTP testLib 0 { now := 0, fetch := .doError "unused" }
        emptyValueRequest).request.Header.lookup keyXForwardedFor
      = some ["2.2.2.2, 3.3.3.3"] := by
  decide

theorem ServeHTTP_request_cases (lib : Stdlib) (c : Cloudflare) (now : Time) (env : RefreshEnv)
    (r : Request) :
    ((c.ServeHTTP lib now env r).request = r ∧
      ((∃ text code, (c.ServeHTTP lib now env r).served = .error text code) ∨
        (c.overwriteForwardedFor = false ∧ (c.ServeHTTP lib now env r).served = .next r))) ∨
    (c.overwriteForwardedFor = true ∧ r.Header.Get keyCFConnectingIP ≠ "" ∧
      (∃ host port sip, lib.SplitHostPort r.RemoteAddr = .ok (host, port) ∧
        lib.ParseIP host = some sip ∧
        (c.checker.CheckIP lib now env sip).allow = true ∧
        (c.checker.CheckIP lib now env sip).err = none) ∧
      (c.ServeHTTP lib now env r).request
        = { r with Header :=
              r.Header.Set keyXForwardedFor (r.Header.Get keyCFConnectingIP) } ∧
      (c.ServeHTTP lib now env r).served = .next (c.ServeHTTP lib now env r).request) := by
  cases hs : lib.SplitHostPort r.RemoteAddr with
  | error e =>
    left
    simp [Cloudflare.ServeHTTP, hs]
  | ok hostport =>
    obtain ⟨host, port⟩ := hostport
    cases hp : lib.ParseIP host with
    | none =>
      left
      simp [Cloudflare.ServeHTTP, hs, hp]
    | some sip =>
      cases he : (c.checker.CheckIP lib now env sip).err with
      | some e =>
        left
        simp [Cloudflare.ServeHTTP, hs, hp, he]
      | none =>
        cases ha : (c.checker.CheckIP lib now env sip).allow with
        | false =>
          left
          simp [Cloudflare.ServeHTTP, hs, hp, he, ha]
        | true =>
          rw [ServeHTTP_of_trusted lib c now env r host port sip hs hp he ha]
          by_cases ho : c.overwriteForwardedFor = true
          · by_cases hg : r.Header.Get keyCFConnectingIP = ""
            · left
              rw [if_pos ho, if_pos hg]
              exact ⟨rfl, Or.inl ⟨_, _, rfl⟩⟩
            · right
              rw [if_pos ho, if_neg hg]
              exact ⟨ho, hg, ⟨host, port, sip, rfl, hp, ha, he⟩, rfl, rfl⟩
          · left
            rw [if_neg ho]
            exact ⟨rfl, Or.inr ⟨by simpa using ho, rfl⟩⟩

/-- C20: `ServeHTTP` leaves the request, headers included, as it was
whenever it rejects it (400, 403 or 500) and whenever `overwriteForwardedFor`
is off; the headers differ afterwards only when the request is trusted,
`overwriteForwardedFor` is on and `CF-Connecting-IP` is present; and in every
case each header other than `X-Forwarded-For` is what it was. -/
theorem ServeHTTP_header_frame (lib : Stdlib) (c : Cloudflare) (now : Time)
    (env : RefreshEnv) (r : Request) :
    (∀ text code, (c.ServeHTTP lib now env r).served = .error text code →
      (c.ServeHTTP lib now env r).request = r) ∧
    (c.overwriteForwardedFor = false → (c.ServeHTTP lib now env r).request = r) ∧
    ((c.ServeHTTP lib now env r).request.Header ≠ r.Header →
      c.overwriteForwardedFor = true ∧ r.Header.Get keyCFConnectingIP ≠ "" ∧
      ∃ host port sip, lib.SplitHostPort r.RemoteAddr = .ok (host, port) ∧
        lib.ParseIP host = some sip ∧
        (c.checker.CheckIP lib now env sip).allow = true ∧
        (c.checker.CheckIP lib now env sip).err = none) ∧
    (∀ k, k ≠ keyXForwardedFor →
      (c.ServeHTTP lib now env r).request.Header.lookup k = r.Header.lookup k) ∧
    (c.ServeHTTP lib now env r).request.RemoteAddr = r.RemoteAddr ∧
    (∀ r', (c.ServeHTTP lib now env r).served = .next r' →
      r' = (c.ServeHTTP lib now env r).request) := by
  rcases ServeHTTP_request_cases lib c now env r with
    ⟨hreq, hserved⟩ | ⟨ho, hg, htrusted, hreq, hserved⟩
  · refine ⟨fun _ _ _ => hreq, fun _ => hreq, ?_, ?_, ?_, ?_⟩
    · intro hne
      rw [hreq] at hne
      exact absurd rfl hne
    · intro k _
      rw [hreq]
    · rw [hreq]
    · intro r' hr'
      rw [hreq]
      rcases hserved with ⟨text, code, herr⟩ | ⟨_, hnext⟩
      · rw [herr] at hr'
        cases hr'
      · rw [hnext] at hr'
        injection hr' with hr'
        exact hr'.symm
  · refine ⟨?_, ?_, fun _ => ⟨ho, hg, htrusted⟩, ?_, ?_, ?_⟩
    · intro text code herr
      rw [hserved] at herr
      cases herr
    · intro hoff
      rw [ho] at hoff
      cases hoff
    · intro k hk
      rw [hreq]
      exact Header_Set_lookup_other keyXForwardedFor _ k hk r.Header
    · rw [hreq]
    · intro r' hr'
      rw [hserved] at hr'
      injection hr' with hr'
      exact hr'.symm

/-- The scenarios "missing header" and "overwrite" of the test: the rejected
request keeps its headers, the rewritten one keeps `CF-Connecting-IP`. -/
theorem ServeHTTP_header_frame_witness :
    (overwriteHandler.ServeHTTP testLib 0 { now := 0, fetch := .doError "unused" }
        missingHeaderRequest).request = missingHeaderRequest ∧
    (overwriteHandler.ServeHTTP testLib 0 { now := 0, fetch := .doError "unused" }
        overwriteRequest).request.Header.lookup keyCFConnectingIP
      = overwriteRequest.Header.lookup keyCFConnectingIP :=
  ⟨(ServeHTTP_header_frame testLib overwriteHandler 0 { now := 0, fetch := .doError "unused" }
      missingHeaderRequest).1 "Bad Request" 400 (by decide),
   (ServeHTTP_header_frame testLib overwriteHandler 0 { now := 0, fetch := .doError "unused" }
      overwriteRequest).2.2.2.1 keyCFConnectingIP (by decide)⟩

/-! ## Address families -/

theorem To4_length (ip x : IP) (h : ip.To4 = some x) : x.length = 4 := by
  unfold IP.To4 at h
  split at h
  · rename_i h4
    injection h with h
    rw [← h]
    exact h4
  · split at h
    · rename_i h16
      injection h with h
      rw [← h, List.length_drop, h16.1]
    · cases h

theorem To4_of_length_four (x : IP) (h : x.length = 4) : x.To4 = some x := by
  simp [IP.To4, h]

/-- C19, as the code has it: an IPv4 range (4-byte address and mask) never
contains an IPv6 address that is not IPv4-mapped, and an IPv6 range (16-byte
mask and a 16-byte address that is not IPv4-mapped) never contains an IPv4
address, whether in 4-byte or in 16-byte IPv4-mapped form; an IPv4-mapped
IPv6 address is tested as the IPv4 address in its last four bytes. -/
theorem Contains_family_aware (n : IPNet) (ip : IP) :
    (n.IP.length = 4 → n.Mask.length = 4 → ip.length = 16 → ip.To4 = none →
      n.Contains ip = false) ∧
    (n.IP.length = 16 → n.IP.To4 = none → n.Mask.length = 16 → ip.To4 ≠ none →
      n.Contains ip = false) ∧
    (∀ x, ip.To4 = some x → n.Contains ip = n.Contains x) := by
  refine ⟨?_, ?_, ?_⟩
  · intro hn hm hip h4
    simp [IPNet.Contains, networkNumberAndMask, To4_of_length_four n.IP hn, hm, hn, h4, hip]
  · intro hn hn4 hm hip
    cases hx : ip.To4 with
    | none => exact absurd hx hip
    | some x =>
      have hxl := To4_length ip x hx
      simp [IPNet.Contains, networkNumberAndMask, hn4, hn, hm, hx, hxl]
  · intro x hx
    have hxl := To4_length ip x hx
    simp only [IPNet.Contains, hx, To4_of_length_four x hxl]

/-- An IPv4 range and the genuine IPv6 address `2001:db8:2:2::1`; the IPv6
range of the test and the address `172.16.1.1`. -/
theorem Contains_family_aware_witness :
    net_172_16_0_0_12.Contains ip_2001_db8_2_2_1 = false ∧
    net_2001_db8_2_47.Contains ip_172_16_1_1 = false :=
  ⟨(Contains_family_aware net_172_16_0_0_12 ip_2001_db8_2_2_1).1 (by decide) (by decide)
      (by decide) (by decide),
   (Contains_family_aware net_2001_db8_2_47 ip_172_16_1_1).2.1 (by decide) (by decide)
      (by decide) (by decide)⟩

/-- C19 as stated fails: the IPv6 address `::ffff:172.16.1.1`, as
`net.ParseIP` returns it, is contained in the IPv4 range `172.16.0.0/12`, so
a static checker over that range trusts it; and the IPv6 range `::ffff:0:0/96`
contains the IPv4 address `172.16.1.1`. -/
theorem Contains_family_aware_counterexample :
    ip_mapped_172_16_1_1.length = 16 ∧
    net_172_16_0_0_12.Contains ip_mapped_172_16_1_1 = true ∧
    staticIPChecker.CheckIP { Cidrs := [net_172_16_0_0_12] } ip_mapped_172_16_1_1
      = (true, none) ∧
    IPNet.Contains
        { IP := [0, 0, 0, 0, 0, 0, 0, 0, 0, 0, 255, 255, 0, 0, 0, 0],
          Mask := [255, 255, 255, 255, 255, 255, 255, 255, 255, 255, 255, 255, 0, 0, 0, 0] }
        ip_172_16_1_1 = true := by
  decide

end TraefikCloudflare
